import Mathlib
/-!
# Verification of gh-aur-updater: reconciliation and package-processing pipeline

Shallow embedding of the core of the `gh-aur-updater` repository:

* `models.py` — `PkgVersion` (parse/format of `[epoch:]pkgver-pkgrel` strings),
  `PKGBUILDData`, `AURPackageInfo`, `PackageUpdateTask`, `BuildResult`;
* `main.py` — `create_update_tasks` (the task reconciler) and the phase-4
  orchestrator loop of `run_main_workflow`;
* `package_updater.py` — `PackageUpdater.process_package`, the per-package
  pipeline (clone, sync, version check, PKGBUILD update, build, artifact
  discovery/collection, AUR commit/push, GitHub release, source-repo sync,
  cleanup), together with the `github_client.py` methods it calls.

External effects (subprocess execution, filesystem, network via the `gh` CLI)
are modelled by an oracle environment `Env`; the interpreter threads an
explicit state carrying the current working directory, the incrementally
mutated `BuildResult`, and a trace of performed effects.  The two filesystem
primitives whose failure the source neither observes nor handles (mkdtemp,
chdir back to the still-existing original directory) are modelled as
succeeding; every operation whose failure the source observes or handles —
including the `shutil.rmtree` of the cleanup, whose failure
`_cleanup_build_dir` catches and swallows — is given an oracle outcome.
-/

/-! ## Character-list utilities mirroring Python string operations -/

/-- Python `str.strip()` on the left: drop leading whitespace. -/
def pyStripLeft (cs : List Char) : List Char :=
  cs.dropWhile (fun c => c = ' ' ∨ c = '\t' ∨ c = '\n' ∨ c = '\r')

/-- Python `str.strip()`: drop leading and trailing whitespace. -/
def pyStripChars (cs : List Char) : List Char :=
  (pyStripLeft (pyStripLeft cs).reverse).reverse

/-- Python `str.strip()` lifted to `String`. -/
def pyStrip (s : String) : String := String.mk (pyStripChars s.data)

/-- Python `sub in s` (substring containment) on char lists. -/
def hasInfix (pat : List Char) : List Char → Bool
  | [] => pat.isEmpty
  | c :: rest => pat.isPrefixOf (c :: rest) || hasInfix pat rest

/-- Python `s.split(sep)[0]` for the two-character separator `"::"`:
the characters before the first occurrence of `"::"` (all of `cs` if none). -/
def takeBeforeDoubleColon : List Char → List Char
  | [] => []
  | c :: rest =>
    if [':', ':'].isPrefixOf (c :: rest) then []
    else c :: takeBeforeDoubleColon rest

/-- Python truthiness of an optional string (`None` and `""` are falsy). -/
def optTruthy : Option String → Bool
  | none => false
  | some s => !(s = "")

/-- Python `a or b` for an optional string `a` and a string `b`. -/
def pyOrElse (a : Option String) (b : String) : String :=
  match a with
  | some s => if s = "" then b else s
  | none => b

/-- Python `s.strip('"')`: drop leading and trailing double-quote characters. -/
def pyStripQuotes (s : String) : String :=
  String.mk (((s.data.dropWhile (· = '"')).reverse.dropWhile (· = '"')).reverse)

/-! ## Version model (`models.py`, `PkgVersion`) -/

/-- `PkgVersion` from `models.py`: pkgver, pkgrel, optional epoch
(`pkgbase` is a vestigial extra field defaulting to `""`). -/
structure PkgVersion where
  pkgver : String
  pkgrel : String
  pkgbase : String := ""
  epoch : Option String := none
deriving DecidableEq, Repr

/-- `PkgVersion.__str__`: `[epoch:]pkgver[-pkgrel]`, where a `None` or empty
epoch is omitted and an empty pkgrel omits the `-pkgrel` suffix
(Python truthiness of `self.epoch` / `self.pkgrel`). -/
def PkgVersion.toStr (v : PkgVersion) : String :=
  (match v.epoch with
   | some e => if e = "" then "" else e ++ ":"
   | none => "") ++ v.pkgver ++ (if v.pkgrel = "" then "" else "-" ++ v.pkgrel)

/-- Helper for the regex `(.+?)-([^-]+)$` of `PkgVersion.from_string`.
Input is the REVERSED remainder; splits at the first `'-'` of the reversed
list, i.e. the last `'-'` of the original, returning
(reversed chars after the hyphen, reversed chars before it). -/
def splitRevAtFirstHyphen : List Char → Option (List Char × List Char)
  | [] => none
  | c :: rest =>
    if c = '-' then some ([], rest)
    else
      match splitRevAtFirstHyphen rest with
      | some (a, b) => some (c :: a, b)
      | none => none

/-- The match of `re.match(r'(.+?)-([^-]+)$', cs)`.  Group 1 `(.+?)` is
lazy and its `.` does not match a newline; group 2 `[^-]+` must be nonempty,
cannot contain a hyphen (though `[^-]` does match a newline), and must reach
`$`.  Since group 2 is hyphen-free and anchored at the end, the only
candidate separator is the LAST hyphen, so the regex matches exactly when
the part before the last hyphen is nonempty and newline-free and the part
after it is nonempty; the groups are those two parts (group 2 greedily
takes everything to the end of the string, trailing newline included). -/
def lastHyphenSplit (cs : List Char) : Option (List Char × List Char) :=
  match splitRevAtFirstHyphen cs.reverse with
  | some (rSuf, rPre) =>
    if rPre.isEmpty || rSuf.isEmpty || rPre.contains '\n' then none
    else some (rPre.reverse, rSuf.reverse)
  | none => none

/-- The epoch extraction of `PkgVersion.from_string` (models.py:65-67):
`if ':' in version_string: epoch, version_string = version_string.split(':', 1)`,
that is, when a colon occurs, the epoch is the prefix before the first colon
and the remainder follows it. -/
def epochSplit (cs : List Char) : Option String × List Char :=
  match cs.contains ':' with
  | true => (some (String.mk (cs.takeWhile (· ≠ ':'))), (cs.dropWhile (· ≠ ':')).tail)
  | false => (none, cs)

/-- `PkgVersion.from_string` (models.py:60-76): extract the epoch, match the
remainder against `(.+?)-([^-]+)$` (split at last hyphen); on no match, the
whole remainder is the pkgver and pkgrel falls back to `"1"`. -/
def PkgVersion.fromString (s : String) : PkgVersion :=
  let ep := epochSplit s.data
  match lastHyphenSplit ep.2 with
  | some (pre, suf) =>
    { pkgver := String.mk pre, pkgrel := String.mk suf, epoch := ep.1 }
  | none =>
    { pkgver := String.mk ep.2, pkgrel := "1", epoch := ep.1 }

example : PkgVersion.fromString "1.2.3-1" =
    { pkgver := "1.2.3", pkgrel := "1" } := by decide

example : PkgVersion.fromString "2:3.4.5-6" =
    { pkgver := "3.4.5", pkgrel := "6", epoch := some "2" } := by decide

example : PkgVersion.fromString "7.8.9" =
    { pkgver := "7.8.9", pkgrel := "1" } := by decide

example : PkgVersion.fromString "3:10.0" =
    { pkgver := "10.0", pkgrel := "1", epoch := some "3" } := by decide

example : PkgVersion.fromString "my-complex-pkgver-1.2-customRel_beta" =
    { pkgver := "my-complex-pkgver-1.2", pkgrel := "customRel_beta" } := by decide

example : PkgVersion.fromString "1:another-complex.pkgver-1.2.3-rc1-5" =
    { pkgver := "another-complex.pkgver-1.2.3-rc1", pkgrel := "5",
      epoch := some "1" } := by decide

example : PkgVersion.toStr { pkgver := "2.0", pkgrel := "10", epoch := some "2" } =
    "2:2.0-10" := by decide
example : PkgVersion.fromString "a\nb-c" =
    { pkgver := "a\nb-c", pkgrel := "1" } := by decide
example : PkgVersion.fromString "a-b\nc" =
    { pkgver := "a", pkgrel := "b\nc" } := by decide
example : PkgVersion.fromString "a-b-\n" =
    { pkgver := "a-b", pkgrel := "\n" } := by decide

/-! ## Data model (`models.py`) -/

/-- `PKGBUILDData` from `models.py`, restricted to the fields that the
reconciler and the processor read (paths modelled as strings). -/
structure PKGBUILDData where
  pkgbuildPath : String
  pkgbase : String := ""
  pkgname : List String := []
  pkgver : String := ""
  pkgrel : String := ""
  epoch : Option String := none
  source : List String := []
  nvcheckerConfigPathRelative : Option String := none
deriving DecidableEq, Repr

/-- `PKGBUILDData.current_version_obj`. -/
def PKGBUILDData.currentVersionObj (d : PKGBUILDData) : PkgVersion :=
  { pkgver := d.pkgver, pkgrel := d.pkgrel, epoch := d.epoch }

/-- `PKGBUILDData.display_name`:
`self.pkgbase or (self.pkgname[0] if self.pkgname else "UnknownPackage")`. -/
def PKGBUILDData.displayName (d : PKGBUILDData) : String :=
  if d.pkgbase = "" then
    match d.pkgname with
    | n :: _ => n
    | [] => "UnknownPackage"
  else d.pkgbase

/-- `AURPackageInfo` from `models.py` (fields read by the core). -/
structure AURPackageInfo where
  pkgbase : String
  name : String
  versionStr : String
deriving DecidableEq, Repr

/-- `AURPackageInfo.version_obj`. -/
def AURPackageInfo.versionObj (i : AURPackageInfo) : PkgVersion :=
  PkgVersion.fromString i.versionStr

/-- `PackageUpdateTask` from `models.py`. -/
structure PackageUpdateTask where
  pkgbuildData : PKGBUILDData
  aurInfo : Option AURPackageInfo := none
  targetUpstreamVerStr : Option String := none
deriving DecidableEq, Repr

/-- `BuildResult` from `models.py` (paths modelled as strings). -/
structure BuildResult where
  packageName : String
  success : Bool := false
  message : String := ""
  oldVersion : Option String := none
  newVersion : Option String := none
  actionsTaken : List String := []
  builtPackagePaths : List String := []
  logArtifactPaths : List String := []
  errorDetails : Option String := none
deriving DecidableEq, Repr

/-- The fields of `BuildConfiguration` (`models.py`) read by the reconciler,
the processor and the GitHub client. -/
structure BuildConfiguration where
  githubRepository : String
  githubWorkspace : String
  aurGitUserName : String
  aurGitUserEmail : String
  sourceRepoGitUserName : String
  sourceRepoGitUserEmail : String
  commitMessagePrefix : String
  debugMode : Bool
  dryRunMode : Bool
deriving DecidableEq, Repr

/-! ## Task reconciler (`main.py`, `create_update_tasks`)

Python `dict`s iterate in insertion order and are keyed uniquely; the three
dict arguments are modelled as association lists (`globallyUpdatedVersions`
is traversed in order; the two maps are only looked up, `dictGet` returning
the first binding like `dict.get`). -/

/-- `dict.get` / `in` on an association list: first binding for the key. -/
def dictGet {α : Type} : List (String × α) → String → Option α
  | [], _ => none
  | (k, v) :: rest, key => if k = key then some v else dictGet rest key

/-- `create_update_tasks` from `main.py`.  Returns the produced tasks
together with the list of package names for which `logger.warning` was
invoked (the "no corresponding PKGBUILD found in workspace" warning).
The loop body, in source order:
* name absent from `workspace_pkgs_map` → warn and `continue`;
* `aur_info` present and `aur_info.version_obj.pkgver == new_upstream_ver_str`
  → `continue` (no task), regardless of the local PKGBUILD's version;
* otherwise append a task (the "local PKGBUILD already at target" check at
  main.py:73 only logs and still falls through to task creation). -/
def createUpdateTasks :
    List (String × String) → List (String × PKGBUILDData) →
    List (String × AURPackageInfo) → List PackageUpdateTask × List String
  | [], _, _ => ([], [])
  | (pkgName, newVer) :: rest, workspaceMap, aurMap =>
    let (tasks, warns) := createUpdateTasks rest workspaceMap aurMap
    match dictGet workspaceMap pkgName with
    | none => (tasks, pkgName :: warns)
    | some pd =>
      let aurInfo := dictGet aurMap pkgName
      let aurMatches : Bool :=
        match aurInfo with
        | some ai => (ai.versionObj).pkgver = newVer
        | none => false
      if aurMatches then (tasks, warns)
      else
        ({ pkgbuildData := pd, aurInfo := aurInfo,
           targetUpstreamVerStr := some newVer } :: tasks, warns)

/-! ## Processor effects, exceptions, oracle environment, interpreter monad

`process_package` (package_updater.py:116-341) drives external effects through
`run_subprocess`, the filesystem, and the `GitHubClient` / `NvCheckerClient`
methods.  The oracle `Env` fixes the outcome of each such call; the
interpreter threads a state with the current working directory, the
incrementally mutated `BuildResult` and a trace of performed effects. -/

/-- Python exceptions, classified the way the `except` chain at
package_updater.py:321-335 distinguishes them. -/
inductive PyExc where
  | archError (msg : String)
  | calledProcessError (cmd : String) (stderr : String)
  | nameError (n : String)
  | otherError (msg : String)
deriving DecidableEq, Repr

/-- Python single-quote character, for quoting names inside messages. -/
def pyQuote : String := "\x27"

/-- `str(e)` for the modelled exceptions (only the `NameError` and
`ArchPackageUpdaterError` renderings are relied upon). -/
def pyExcStr : PyExc → String
  | .archError m => m
  | .calledProcessError c _ =>
    "Command " ++ pyQuote ++ c ++ pyQuote ++ " returned non-zero exit status."
  | .nameError n => "name " ++ pyQuote ++ n ++ pyQuote ++ " is not defined"
  | .otherError m => m

/-- `SubprocessResult` from `models.py` (the `command_str` field is only
used for logging and is omitted). -/
structure SubRes where
  returncode : Int
  stdout : String
  stderr : String
deriving DecidableEq, Repr

/-- Observable effects of one `process_package` run. -/
inductive Eff where
  | mkdtemp (dir : String)
  | chdir (dir : String)
  | runCmd (cmd : List String)
  | syncWorkspaceFiles
  | nvcheckerRun
  | readUpdatePkgbuild (wrote : Bool)
  | writeSrcinfo
  | collectArtifacts
  | rmtree (dir : String)
  | rmtreeFailed (dir : String)
deriving DecidableEq, Repr

/-- Oracle environment: outcome of every external call one package's
processing can make. -/
structure Env where
  /-- Outcome of `run_subprocess` (utils.py) for each command: the
  `SubprocessResult` of `subprocess.run`, or the exception it raises. -/
  runSub : List String → Except PyExc SubRes
  /-- Name returned by `tempfile.mkdtemp` (package_updater.py:125). -/
  buildDirName : String
  /-- `Path.cwd()` recorded at package_updater.py:124. -/
  originalCwd : String
  /-- Outcome of the workspace→clone copy loop (package_updater.py:143-148);
  an error carries the exception text interpolated at line 151. -/
  syncResult : Except String Unit
  /-- Outcome of `shutil.rmtree` in `_cleanup_build_dir`
  (package_updater.py:49): an error carries the exception text; the caller
  catches and only logs it (lines 50-51), leaving the directory in place. -/
  rmtreeResult : Except String Unit
  /-- Outcome of `_update_pkgbuild_version_in_file`
  (package_updater.py:55-113): whether the PKGBUILD content changed, or the
  message of the `ArchPackageUpdaterError` the wrapper raises (lines
  108-113 wrap every exception into `ArchPackageUpdaterError`). -/
  updResult : Except String Bool
  /-- Outcome of `Path(".SRCINFO").write_text(...)` (package_updater.py:200). -/
  writeSrcinfoResult : Except PyExc Unit
  /-- Outcome of the artifact-collection block (package_updater.py:226-240):
  the destination paths appended to `log_artifact_paths`, or the exception
  raised.  Abstracts the `set(...)` iteration whose order is unspecified. -/
  collectResult : Except PyExc (List String)
  /-- `sorted(Path(".").glob(pattern))` per pattern (package_updater.py:213-217). -/
  glob : String → List String
  /-- Filesystem existence of a path (`is_file`/`exists` checks). -/
  isFile : String → Bool
  /-- Base64 of a local file's bytes (github_client.py:95-96). -/
  fileB64 : String → String

/-- Interpreter state: current working directory, the mutable `BuildResult`,
and the trace of effects performed so far. -/
structure ProcSt where
  cwd : String
  result : BuildResult
  trace : List Eff

/-- The interpreter monad: state transformer with Python-exception escape. -/
def M (α : Type) : Type := ProcSt → Except PyExc α × ProcSt

/-- `pure` of the interpreter monad. -/
def M.mkPure {α : Type} (a : α) : M α := fun s => (Except.ok a, s)

/-- `bind` of the interpreter monad: sequence unless an exception escaped. -/
def M.mkBind {α β : Type} (x : M α) (f : α → M β) : M β := fun s =>
  match x s with
  | (Except.ok a, s1) => f a s1
  | (Except.error e, s1) => (Except.error e, s1)

instance : Monad M where
  pure := M.mkPure
  bind := M.mkBind

/-- Record an effect. -/
def emitEff (e : Eff) : M Unit :=
  fun s => (Except.ok (), { s with trace := s.trace ++ [e] })

/-- Raise a Python exception. -/
def throwExc {α : Type} (e : PyExc) : M α := fun s => (Except.error e, s)

/-- Read the `BuildResult` being built. -/
def getResult : M BuildResult := fun s => (Except.ok s.result, s)

/-- Mutate the `BuildResult` being built. -/
def modifyResult (f : BuildResult → BuildResult) : M Unit :=
  fun s => (Except.ok (), { s with result := f s.result })

/-- `result.actions_taken.append(a)`. -/
def addAction (a : String) : M Unit :=
  modifyResult (fun r => { r with actionsTaken := r.actionsTaken ++ [a] })

/-- `os.chdir` (package_updater.py:130). -/
def chdirEff (d : String) : M Unit :=
  fun s => (Except.ok (), { s with cwd := d, trace := s.trace ++ [Eff.chdir d] })

/-- Attempt a subprocess: records the execution, returns the outcome without
raising (`run_subprocess` strips stdout/stderr of a completed process,
utils.py:40-41, and re-raises any exception). -/
def tryRunSubM (env : Env) (cmd : List String) : M (Except PyExc SubRes) :=
  fun s =>
    let s1 := { s with trace := s.trace ++ [Eff.runCmd cmd] }
    match env.runSub cmd with
    | Except.ok r =>
      (Except.ok (Except.ok
        { r with stdout := pyStrip r.stdout, stderr := pyStrip r.stderr }), s1)
    | Except.error e => (Except.ok (Except.error e), s1)

/-- `run_subprocess` as used with `check=True`: any exception propagates. -/
def runSubM (env : Env) (cmd : List String) : M SubRes := do
  let r ← tryRunSubM env cmd
  match r with
  | Except.ok res => pure res
  | Except.error e => throwExc e

/-! ## The per-package pipeline (`package_updater.py:116-341`) -/

/-- AUR clone URL (package_updater.py:133). -/
def aurCloneUrl (pkgbase : String) : String :=
  "ssh://aur@aur.archlinux.org/" ++ pkgbase ++ ".git"

/-- Workspace→clone file sync (package_updater.py:137-151): any exception in
the copy loop is re-raised as
`ArchPackageUpdaterError(f"Failed to sync files from workspace: {e}")`. -/
def syncFilesM (env : Env) : M Unit :=
  fun s =>
    let s1 := { s with trace := s.trace ++ [Eff.syncWorkspaceFiles] }
    match env.syncResult with
    | Except.ok _ => (Except.ok (), s1)
    | Except.error m =>
      (Except.error (PyExc.archError ("Failed to sync files from workspace: " ++ m)), s1)

/-- Package-specific version check (package_updater.py:158-179): when the
PKGBUILD has a truthy (non-`None`, non-empty) `.nvchecker.toml` path,
`run_package_specific_check` (nvchecker_client.py:186-251) is called on the
config resolved against the workspace.  If that config file does not exist
the function returns `None` (line 199-201) and the global target stands.
If it does exist, the nvchecker subprocess is attempted (line 212) and
parsing its output reaches `re.compile` (line 217) — but nvchecker_client.py
imports neither `re` nor `subprocess`, so the resulting `NameError` makes
the evaluation of the handler clause `except subprocess.CalledProcessError`
(line 243) raise `NameError("name 'subprocess' is not defined")`, which
propagates to `process_package`; the override logic at
package_updater.py:173-179 is unreachable. -/
def versionCheckM (cfg : BuildConfiguration) (env : Env)
    (task : PackageUpdateTask) : M (Option String) :=
  let newPkgverStr := task.targetUpstreamVerStr
  match task.pkgbuildData.nvcheckerConfigPathRelative with
  | some rel =>
    if rel ≠ "" then
      if env.isFile (cfg.githubWorkspace ++ "/" ++ rel) then
        emitEff Eff.nvcheckerRun >>= fun _ =>
          throwExc (PyExc.nameError "subprocess")
      else pure newPkgverStr
    else pure newPkgverStr
  | none => pure newPkgverStr

/-- `_update_pkgbuild_version_in_file` (package_updater.py:55-113): returns
whether the PKGBUILD content changed; every exception is wrapped in an
`ArchPackageUpdaterError` whose message the oracle provides. -/
def updFileM (env : Env) : M Bool :=
  fun s =>
    match env.updResult with
    | Except.ok changed =>
      (Except.ok changed,
       { s with trace := s.trace ++ [Eff.readUpdatePkgbuild changed] })
    | Except.error m =>
      (Except.error (PyExc.archError m),
       { s with trace := s.trace ++ [Eff.readUpdatePkgbuild false] })

/-- PKGBUILD update decision (package_updater.py:181-190): when the computed
target is truthy and differs from the current `pkgver`, rewrite the PKGBUILD
(recording the action and `new_version = target-1` only if content changed);
otherwise record the unchanged current version.  Returns `pkgs_updated`. -/
def updateDescriptorM (env : Env) (task : PackageUpdateTask)
    (finalTarget : Option String) : M Bool :=
  let pkg := task.pkgbuildData
  match finalTarget with
  | some t =>
    if t ≠ "" ∧ t ≠ pkg.pkgver then do
      let changed ← updFileM env
      if changed then do
        addAction ("PKGBUILD updated to " ++ t ++ "-1")
        modifyResult (fun r => { r with newVersion := some (t ++ "-1") })
        pure true
      else pure false
    else do
      modifyResult (fun r =>
        { r with newVersion := some (PkgVersion.toStr pkg.currentVersionObj) })
      pure false
  | none => do
    modifyResult (fun r =>
      { r with newVersion := some (PkgVersion.toStr pkg.currentVersionObj) })
    pure false

/-- Built-artifact discovery (package_updater.py:213-217): glob for
`{pkgbase}*.pkg.tar.zst`, falling back to `{display_name}*.pkg.tar.zst`,
falling back to `*.pkg.tar.zst`; first non-empty (sorted) match wins. -/
def discoverBuiltPackages (env : Env) (pkg : PKGBUILDData) : List String :=
  let l1 := env.glob (pkg.pkgbase ++ "*.pkg.tar.zst")
  if l1 ≠ [] then l1
  else
    let l2 := env.glob (pkg.displayName ++ "*.pkg.tar.zst")
    if l2 ≠ [] then l2
    else env.glob "*.pkg.tar.zst"

/-- Artifact collection (package_updater.py:225-240): copies PKGBUILD,
.SRCINFO, built packages and `*.log` files to the per-package artifact
directory, appending each copied destination to `log_artifact_paths`. -/
def collectArtifactsM (env : Env) : M Unit :=
  fun s =>
    let s1 := { s with trace := s.trace ++ [Eff.collectArtifacts] }
    match env.collectResult with
    | Except.ok l =>
      (Except.ok (),
       { s1 with result :=
          { s1.result with logArtifactPaths := s1.result.logArtifactPaths ++ l } })
    | Except.error e => (Except.error e, s1)

/-- `Path(".SRCINFO").write_text(...)` (package_updater.py:200). -/
def writeSrcinfoM (env : Env) : M Unit :=
  fun s =>
    let s1 := { s with trace := s.trace ++ [Eff.writeSrcinfo] }
    match env.writeSrcinfoResult with
    | Except.ok _ => (Except.ok (), s1)
    | Except.error e => (Except.error e, s1)

/-- Build block (package_updater.py:192-240), entered when `pkgs_updated`
or `debug_mode`: updpkgsums, generate .SRCINFO, makepkg, discover built
artifacts (fatal `ArchPackageUpdaterError` when every glob level is empty),
then collect artifacts. -/
def buildStageM (cfg : BuildConfiguration) (env : Env)
    (task : PackageUpdateTask) (pkgsUpdated : Bool) : M Unit :=
  let pkg := task.pkgbuildData
  if pkgsUpdated || cfg.debugMode then do
    let _ ← runSubM env ["updpkgsums"]
    addAction "Checksums updated"
    let _ ← runSubM env ["makepkg", "--printsrcinfo", "--nocolor"]
    writeSrcinfoM env
    addAction ".SRCINFO generated"
    let _ ← runSubM env ["makepkg", "-Lcs", "--noconfirm", "--needed", "--noprogressbar"]
    addAction "Package built"
    let built := discoverBuiltPackages env pkg
    if built = [] then
      throwExc (PyExc.archError
        "No package files (*.pkg.tar.zst) found after successful makepkg.")
    else do
      modifyResult (fun r => { r with builtPackagePaths := built })
      collectArtifactsM env
  else pure ()

/-- Local source files to `git add` (package_updater.py:250-257): for each
PKGBUILD source entry, the part before `::` is the filename; entries that
contain `://` or start with `git+` are remote; local entries are added only
when the file is present in the build directory. -/
def localSourceFilesToAdd (env : Env) (pkg : PKGBUILDData) : List String :=
  pkg.source.filterMap (fun srcEntry =>
    if !(hasInfix [':', '/', '/'] srcEntry.data)
        ∧ !(['g', 'i', 't', '+'].isPrefixOf srcEntry.data) then
      let fname := String.mk (takeBeforeDoubleColon srcEntry.data)
      if env.isFile fname then some fname else none
    else none)

/-- AUR commit & push (package_updater.py:242-272): when `git status
--porcelain` reports changes, `git add` the deduplicated file list
(`list(set(...))` — the set order is abstracted as first-occurrence
deduplication), commit with the configured prefix, and push unless in dry-run
mode (push is recorded in `actions_taken`). -/
def aurPublishM (cfg : BuildConfiguration) (env : Env)
    (task : PackageUpdateTask) : M Unit := do
  let pkg := task.pkgbuildData
  let st ← runSubM env ["git", "status", "--porcelain"]
  if pyStrip st.stdout ≠ "" then do
    let files := ["PKGBUILD", ".SRCINFO"] ++ localSourceFilesToAdd env pkg
    let _ ← runSubM env (["git", "add"] ++ files.dedup)
    let r ← getResult
    let commitVer := pyOrElse r.newVersion (PkgVersion.toStr pkg.currentVersionObj)
    let msg := cfg.commitMessagePrefix ++ ": " ++ pkg.displayName ++ " to v" ++ commitVer
    let _ ← runSubM env ["git", "commit", "-m", msg]
    if !cfg.dryRunMode then do
      let _ ← runSubM env ["git", "push"]
      addAction "AUR changes pushed"
    else pure ()
  else pure ()

/-! ## GitHub client calls (`github_client.py`) as used by the processor -/

/-- `GitHubClient.tag_exists` (github_client.py:120-130): run `gh release
view` with `check=False`; exists iff exit code 0; any exception is caught
and reported as `False`. -/
def tagExistsM (cfg : BuildConfiguration) (env : Env) (tag : String) : M Bool := do
  let r ← tryRunSubM env ["gh", "release", "view", tag, "-R", cfg.githubRepository]
  match r with
  | Except.ok res => pure (res.returncode = 0)
  | Except.error _ => pure false

/-- `GitHubClient.delete_release_and_tag` (github_client.py:132-156):
dry-run returns immediately; otherwise `gh release delete --cleanup-tag`,
any exception re-raised as `ArchPackageUpdaterError`. -/
def deleteReleaseAndTagM (cfg : BuildConfiguration) (env : Env)
    (tag : String) : M Unit := do
  if cfg.dryRunMode then pure ()
  else do
    let r ← tryRunSubM env
      ["gh", "release", "delete", tag, "--cleanup-tag", "--yes", "-R", cfg.githubRepository]
    match r with
    | Except.ok _ => pure ()
    | Except.error e =>
      throwExc (PyExc.archError
        ("Failed to delete release/tag " ++ pyQuote ++ tag ++ pyQuote ++ ": " ++ pyExcStr e))

/-- `GitHubClient.create_release` (github_client.py:159-191): dry-run
returns immediately; otherwise `gh release create` with the existing asset
files appended; any exception re-raised as `ArchPackageUpdaterError`. -/
def createReleaseM (cfg : BuildConfiguration) (env : Env)
    (tag title notes : String) (assetPaths : List String) : M Unit := do
  if cfg.dryRunMode then pure ()
  else do
    let r ← tryRunSubM env
      (["gh", "release", "create", tag, "--title", title, "--notes", notes,
        "-R", cfg.githubRepository] ++ assetPaths.filter env.isFile)
    match r with
    | Except.ok _ => pure ()
    | Except.error e =>
      throwExc (PyExc.archError
        ("Failed to create GitHub release " ++ pyQuote ++ tag ++ pyQuote ++ ": " ++ pyExcStr e))

/-- `GitHubClient.get_file_sha` (github_client.py:48-73): `gh api ... --jq
.sha` with `check=False`; a zero exit with non-empty, non-"null" stdout
yields the quoted-stripped sha; every other outcome (including any
exception) yields `None`. -/
def getFileShaM (cfg : BuildConfiguration) (env : Env)
    (repoFilePath : String) : M (Option String) := do
  let r ← tryRunSubM env
    ["gh", "api", "repos/" ++ cfg.githubRepository ++ "/contents/" ++ repoFilePath,
     "--jq", ".sha"]
  match r with
  | Except.ok res =>
    if res.returncode = 0 ∧ pyStrip res.stdout ≠ "" ∧ pyStrip res.stdout ≠ "null" then
      pure (some (pyStripQuotes (pyStrip res.stdout)))
    else pure none
  | Except.error _ => pure none

/-- `GitHubClient.update_file_in_source_repo` (github_client.py:75-118):
dry-run returns immediately; a missing local file raises
`ArchPackageUpdaterError`; otherwise a `gh api --method PUT` write whose
fields carry the commit message, base64 content, author/committer identity
and, when present, the optimistic-concurrency sha; any exception re-raised
as `ArchPackageUpdaterError`. -/
def updateFileInSourceRepoM (cfg : BuildConfiguration) (env : Env)
    (repoFilePath localFile commitMessage : String)
    (currentSha : Option String) : M Unit := do
  if cfg.dryRunMode then pure ()
  else if !env.isFile localFile then
    throwExc (PyExc.archError ("Local file not found: " ++ localFile))
  else do
    let fields :=
      ["-f", "message=" ++ commitMessage,
       "-f", "content=" ++ env.fileB64 localFile,
       "-f", "author.name=" ++ cfg.sourceRepoGitUserName,
       "-f", "author.email=" ++ cfg.sourceRepoGitUserEmail,
       "-f", "committer.name=" ++ cfg.sourceRepoGitUserName,
       "-f", "committer.email=" ++ cfg.sourceRepoGitUserEmail]
    let shaField :=
      match currentSha with
      | some sha => ["-f", "sha=" ++ sha]
      | none => []
    let r ← tryRunSubM env
      (["gh", "api", "--method", "PUT",
        "repos/" ++ cfg.githubRepository ++ "/contents/" ++ repoFilePath]
       ++ fields ++ shaField)
    match r with
    | Except.ok _ => pure ()
    | Except.error e =>
      throwExc (PyExc.archError
        ("Failed to update GitHub file " ++ pyQuote ++ repoFilePath ++ pyQuote
         ++ ": " ++ pyExcStr e))

/-! ## Release, source sync, body, wrapper, orchestrator -/

/-- GitHub release block (package_updater.py:274-291): only when artifacts
were built and (`pkgs_updated` or a "Package built" action was taken).
Tag = `{display_name}-{result.new_version or pkgver}`; an existing tag is
deleted (with `--cleanup-tag`) before the fresh create; delete and create
are both skipped in dry-run mode (the existence probe is not). -/
def releaseOverwriteStepM (cfg : BuildConfiguration) (env : Env)
    (tagAlready : Bool) (tag : String) : M Unit :=
  if tagAlready then
    (if !cfg.dryRunMode then deleteReleaseAndTagM cfg env tag else pure ()) >>= fun _ =>
      addAction ("Deleted existing release/tag: " ++ tag)
  else pure ()

/-- The release block continued: existence probe, overwrite step, then the
(dry-run-guarded) create with its action record (package_updater.py:274-291). -/
def releaseStageM (cfg : BuildConfiguration) (env : Env)
    (task : PackageUpdateTask) (pkgsUpdated : Bool) : M Unit := do
  let pkg := task.pkgbuildData
  let r ← getResult
  if r.builtPackagePaths ≠ [] ∧ (pkgsUpdated = true ∨ "Package built" ∈ r.actionsTaken) then do
    let ver := pyOrElse r.newVersion pkg.pkgver
    let releaseTag := pkg.displayName ++ "-" ++ ver
    let releaseTitle := pkg.displayName ++ " " ++ ver
    let releaseNotes :=
      "Automated release for " ++ pkg.displayName ++ " version " ++ ver ++ "."
    let tagAlready ← tagExistsM cfg env releaseTag
    releaseOverwriteStepM cfg env tagAlready releaseTag
    if !cfg.dryRunMode then do
      createReleaseM cfg env releaseTag releaseTitle releaseNotes r.builtPackagePaths
      addAction ("GitHub release created/updated: " ++ releaseTag)
    else pure ()
  else pure ()

/-- `Path.parent` of a slash-separated path string: the characters before
the last `'/'`. -/
def parentDir (p : String) : String :=
  String.mk ((p.data.reverse.dropWhile (· ≠ '/')).tail.reverse)

/-- `Path.relative_to` (package_updater.py:307): the path with the
workspace prefix removed; raises `ValueError` when the path is not under
the workspace. -/
def relativeToWorkspace (p workspace : String) : Except PyExc String :=
  if (workspace ++ "/").data.isPrefixOf p.data then
    Except.ok (String.mk (p.data.drop (workspace ++ "/").data.length))
  else Except.error (PyExc.otherError ("ValueError: path not under " ++ workspace))

/-- One iteration of the source-repo sync loop (package_updater.py:303-316):
skip when the file is absent from the AUR clone; otherwise fetch the remote
sha and, unless in dry-run mode, PUT the file and record the action. -/
def syncOneFileM (cfg : BuildConfiguration) (env : Env)
    (filenameInAurClone origWorkspacePath msgBase : String) : M Unit := do
  if env.isFile filenameInAurClone then
    match relativeToWorkspace origWorkspacePath cfg.githubWorkspace with
    | Except.error e => throwExc e
    | Except.ok repoRelativePath => do
      let sha ← getFileShaM cfg env repoRelativePath
      let commitMsg := msgBase ++ " (" ++ filenameInAurClone ++ ")"
      if !cfg.dryRunMode then do
        updateFileInSourceRepoM cfg env repoRelativePath filenameInAurClone commitMsg sha
        addAction ("Synced " ++ filenameInAurClone ++ " to source repo")
      else pure ()
  else pure ()

/-- Source-repo sync block (package_updater.py:294-316): runs only when
`actions_taken` contains the exact string `"PKGBUILD updated"` or
`".SRCINFO generated"` (note the build appends `"PKGBUILD updated to
{v}-1"`, which is a different list element from `"PKGBUILD updated"`);
iterates over PKGBUILD and .SRCINFO in insertion order. -/
def syncSourceStageM (cfg : BuildConfiguration) (env : Env)
    (task : PackageUpdateTask) : M Unit := do
  let pkg := task.pkgbuildData
  let r ← getResult
  if "PKGBUILD updated" ∈ r.actionsTaken ∨ ".SRCINFO generated" ∈ r.actionsTaken then do
    let msgBase := "Sync " ++ pkg.displayName ++ " files after AUR update to v"
      ++ pyOrElse r.newVersion pkg.pkgver
    syncOneFileM cfg env "PKGBUILD" pkg.pkgbuildPath msgBase
    syncOneFileM cfg env ".SRCINFO" (parentDir pkg.pkgbuildPath ++ "/.SRCINFO") msgBase
  else pure ()

/-- The `try` block of `process_package` (package_updater.py:129-319), in
source order: chdir into the build dir, AUR clone, file sync, git identity
configuration, version check, PKGBUILD update, build, AUR publish, release,
source sync, and finally mark the result successful. -/
def processBody (cfg : BuildConfiguration) (env : Env)
    (task : PackageUpdateTask) : M Unit := do
  let pkg := task.pkgbuildData
  chdirEff env.buildDirName
  let _ ← runSubM env ["git", "clone", aurCloneUrl pkg.pkgbase, "."]
  syncFilesM env
  let _ ← runSubM env ["git", "config", "user.name", cfg.aurGitUserName]
  let _ ← runSubM env ["git", "config", "user.email", cfg.aurGitUserEmail]
  let finalTarget ← versionCheckM cfg env task
  let pkgsUpdated ← updateDescriptorM env task finalTarget
  buildStageM cfg env task pkgsUpdated
  aurPublishM cfg env task
  releaseStageM cfg env task pkgsUpdated
  syncSourceStageM cfg env task
  modifyResult (fun r =>
    { r with success := true,
             message := "Package " ++ pyQuote ++ pkg.displayName ++ pyQuote
               ++ " processed successfully." })

/-- Outcome of one `process_package` call: the returned `BuildResult` or the
escaping exception, the effect trace, the restored working directory, and
whether the per-package build directory still exists afterwards. -/
structure ProcOut where
  res : Except PyExc BuildResult
  trace : List Eff
  finalCwd : String
  buildDirExistsAfter : Bool
deriving Repr

/-- The effects of the `finally` block (package_updater.py:336-339):
`os.chdir(original_cwd)` (modelled as reliable — the original directory
still exists), then `_cleanup_build_dir` attempts `shutil.rmtree` on the
build directory; a failure of the removal is caught and only logged
(package_updater.py:50-51), recorded here as `Eff.rmtreeFailed`, and the
directory then persists. -/
def cleanupEffects (env : Env) : List Eff :=
  Eff.chdir env.originalCwd ::
    (match env.rmtreeResult with
     | Except.ok _ => [Eff.rmtree env.buildDirName]
     | Except.error _ => [Eff.rmtreeFailed env.buildDirName])

/-- `PackageUpdater.process_package` (package_updater.py:116-341).

The `except` chain (lines 321-335): `ArchPackageUpdaterError` is caught and
converted into a failed `BuildResult`; for every other exception Python must
first evaluate the second clause `except subprocess.CalledProcessError`
(line 326), and since `package_updater.py` never imports `subprocess`, that
evaluation raises `NameError("name 'subprocess' is not defined")`, which
escapes `process_package`.

The `finally` block (lines 336-339) always runs exactly once: it restores
the original working directory and `_cleanup_build_dir` attempts to remove
the temporary build directory, swallowing a removal failure (lines 43-52);
see `cleanupEffects`.
`initialResult` is the `BuildResult` as first constructed (line 122). -/
def initialResult (task : PackageUpdateTask) : BuildResult :=
  { packageName := task.pkgbuildData.displayName,
    oldVersion := some (PkgVersion.toStr task.pkgbuildData.currentVersionObj) }

/-- State at entry of the `try` block: original cwd recorded
(package_updater.py:124), build dir freshly created (line 125). -/
def initialState (env : Env) (task : PackageUpdateTask) : ProcSt :=
  { cwd := env.originalCwd, result := initialResult task,
    trace := [Eff.mkdtemp env.buildDirName] }

/-- See `processPackage` below. -/
def processPackage (cfg : BuildConfiguration) (env : Env)
    (task : PackageUpdateTask) : ProcOut :=
  let pkgName := task.pkgbuildData.displayName
  let out := processBody cfg env task (initialState env task)
  let s1 := out.2
  let res : Except PyExc BuildResult :=
    match out.1 with
    | Except.ok _ => Except.ok s1.result
    | Except.error (PyExc.archError m) =>
      Except.ok
        { s1.result with
            success := false,
            message := "Error processing " ++ pyQuote ++ pkgName ++ pyQuote ++ ": " ++ m,
            errorDetails := some m }
    | Except.error _ => Except.error (PyExc.nameError "subprocess")
  { res := res,
    trace := s1.trace ++ cleanupEffects env,
    finalCwd := env.originalCwd,
    buildDirExistsAfter :=
      match env.rmtreeResult with
      | Except.ok _ => false
      | Except.error _ => true }

/-- One iteration of the phase-4 orchestrator loop (main.py:234-256): a
returned result is taken as-is; an exception escaping `process_package` is
caught by the orchestrator's own `except Exception` and converted into a
last-resort failed `BuildResult`. -/
def orchestratorProcessTask (cfg : BuildConfiguration) (env : Env)
    (task : PackageUpdateTask) : BuildResult :=
  match (processPackage cfg env task).res with
  | Except.ok r => r
  | Except.error e =>
    { packageName := task.pkgbuildData.displayName,
      success := false,
      message := "Critical error during package processing.",
      errorDetails := some (pyExcStr e) }

/-- The phase-4 loop over all tasks (main.py:234-257): strictly sequential,
one `BuildResult` per task, never aborted by a task's failure. -/
def orchestratorRunTasks (cfg : BuildConfiguration) :
    List (Env × PackageUpdateTask) → List BuildResult
  | [] => []
  | (env, task) :: rest =>
    orchestratorProcessTask cfg env task :: orchestratorRunTasks cfg rest

/-! ## Lemmas about the version parser -/

/-! ## Predicates and concrete fixtures used by the claim theorems -/

/-- A version triple on which parse→format can be lossless: nonempty base
and release, no hyphen in the release (the release is delimited by the LAST
hyphen), a newline-free base (the regex group before the release separator
is `(.+?)` and `.` does not match a newline), a nonempty colon-free epoch
when present, and colon-free base and release when no epoch is present
(otherwise formatting would fabricate an epoch separator that parsing
mistakes for an epoch). -/
def PkgVersion.validTriple (v : PkgVersion) : Prop :=
  v.pkgver ≠ "" ∧ v.pkgrel ≠ "" ∧ '-' ∉ v.pkgrel.data ∧ '\n' ∉ v.pkgver.data ∧
  (match v.epoch with
   | some e => e ≠ "" ∧ ':' ∉ e.data
   | none => ':' ∉ v.pkgver.data ∧ ':' ∉ v.pkgrel.data)

/-- Concrete fixture: local descriptor of `foo`, still recording 1.0-1. -/
def pdFooLocal : PKGBUILDData :=
  { pkgbuildPath := "/ws/pkgs/foo/PKGBUILD", pkgbase := "foo",
    pkgname := ["foo"], pkgver := "1.0", pkgrel := "1" }

/-- Concrete fixture: AUR listing of `foo` already at 1.1-1. -/
def aiFooRegistry : AURPackageInfo :=
  { pkgbase := "foo", name := "foo", versionStr := "1.1-1" }

/-- `EmitsOnly P x`: every effect that running `x` appends to the trace
satisfies `P`. -/
def EmitsOnly (P : Eff → Prop) {α : Type} (x : M α) : Prop :=
  ∀ s e, e ∈ (x s).2.trace → e ∈ s.trace ∨ P e

/-- An effect that attempts the removal of a directory, whether the
removal succeeded or was caught failing. -/
def isRmtreeAttempt : Eff → Bool
  | Eff.rmtree _ => true
  | Eff.rmtreeFailed _ => true
  | _ => false

/-- Concrete configuration (dry run off, debug off). -/
def cfgBase : BuildConfiguration :=
  { githubRepository := "owner/repo", githubWorkspace := "/ws",
    aurGitUserName := "aur-bot", aurGitUserEmail := "aur@example.org",
    sourceRepoGitUserName := "src-bot", sourceRepoGitUserEmail := "src@example.org",
    commitMessagePrefix := "auto", debugMode := false, dryRunMode := false }

/-- Concrete task: update `foo` (locally 1.0-1) to upstream 1.1. -/
def taskFoo : PackageUpdateTask :=
  { pkgbuildData := pdFooLocal, aurInfo := none, targetUpstreamVerStr := some "1.1" }

/-- Oracle under which every external call succeeds: all subprocesses exit 0
with empty output, the PKGBUILD rewrite changes content, and the artifact
glob finds one built package. -/
def envAllOk : Env :=
  { runSub := fun _ => Except.ok { returncode := 0, stdout := "", stderr := "" },
    buildDirName := "/tmp/foo-build-ok",
    originalCwd := "/home/runner",
    syncResult := Except.ok (),
    rmtreeResult := Except.ok (),
    updResult := Except.ok true,
    writeSrcinfoResult := Except.ok (),
    collectResult := Except.ok [],
    glob := fun _ => ["foo-1.1-1-x86_64.pkg.tar.zst"],
    isFile := fun _ => false,
    fileB64 := fun _ => "" }

/-- Oracle under which the very first subprocess (`git clone`) raises
`subprocess.CalledProcessError` (nonzero exit under `check=True`). -/
def envCloneFails : Env :=
  { envAllOk with
      buildDirName := "/tmp/foo-build-x1",
      runSub := fun _ =>
        Except.error (PyExc.calledProcessError "git clone" "fatal: repository not found") }

/-- Oracle like `envAllOk` except that the cleanup `shutil.rmtree` raises
(e.g. a permission error), which `_cleanup_build_dir` swallows. -/
def envRmtreeFails : Env :=
  { envAllOk with
      buildDirName := "/tmp/foo-build-rmf",
      rmtreeResult := Except.error "Permission denied" }

/-- The outward-facing mutating commands of the pipeline: `git push` to the
AUR, `gh release delete`/`gh release create`, and the `gh api --method PUT`
source-repository file write. -/
def isOutwardMutation (e : Eff) : Bool :=
  match e with
  | Eff.runCmd c =>
    decide (c = ["git", "push"]) ||
    decide (c.take 3 = ["gh", "release", "delete"]) ||
    decide (c.take 3 = ["gh", "release", "create"]) ||
    decide (c.take 4 = ["gh", "api", "--method", "PUT"])
  | _ => false

/-- Dry-run fixture: `cfgBase` with `dry_run_mode` on. -/
def cfgDry : BuildConfiguration := { cfgBase with dryRunMode := true }

/-- Oracle like `envAllOk` but `git status --porcelain` reports a change,
so the commit path is taken. -/
def envDryChanges : Env :=
  { envAllOk with
      buildDirName := "/tmp/foo-build-dry",
      runSub := fun c =>
        if c = ["git", "status", "--porcelain"] then
          Except.ok { returncode := 0, stdout := "M PKGBUILD", stderr := "" }
        else Except.ok { returncode := 0, stdout := "", stderr := "" } }

/-- Concrete task whose target equals the descriptor's current pkgver. -/
def taskFooNoChange : PackageUpdateTask :=
  { pkgbuildData := pdFooLocal, aurInfo := none, targetUpstreamVerStr := some "1.0" }

/-- Oracle for the no-change scenario: every subprocess succeeds; `git
status --porcelain` reports a modification exactly when `changed` is set
(the synced working tree may differ from the AUR clone even when the
version is unchanged). -/
def envNoChange (changed : Bool) : Env :=
  { envAllOk with
      buildDirName := "/tmp/foo-build-nc",
      runSub := fun c =>
        if c = ["git", "status", "--porcelain"] then
          Except.ok { returncode := 0,
                      stdout := if changed then "M PKGBUILD" else "",
                      stderr := "" }
        else Except.ok { returncode := 0, stdout := "", stderr := "" } }

/-- Oracle for the artifact-discovery scenario: `foo`'s build succeeds and
the artifact glob returns `lA` for the `foo*.pkg.tar.zst` pattern (both the
pkgbase and the display-name pattern, which coincide for `foo`) and `lB`
for the generic `*.pkg.tar.zst` pattern. -/
def envGlob (lA lB : List String) : Env :=
  { envAllOk with
      buildDirName := "/tmp/foo-build-glob",
      glob := fun p => if p = "*.pkg.tar.zst" then lB else lA }

/-- The delete effect of the concrete `foo` release overwrite. -/
def fooDeleteEff : Eff :=
  Eff.runCmd ["gh", "release", "delete", "foo-1.1-1", "--cleanup-tag", "--yes",
    "-R", "owner/repo"]

/-- The create effect of the concrete `foo` release. -/
def fooCreateEff : Eff :=
  Eff.runCmd ["gh", "release", "create", "foo-1.1-1", "--title", "foo 1.1-1",
    "--notes", "Automated release for foo version 1.1-1.", "-R", "owner/repo"]

/-- Concrete mid-pipeline state for the C9 witness: `foo` updated to
1.1-1 with one built artifact. -/
def sRelFixture : ProcSt :=
  { cwd := "/tmp/foo-build-ok",
    result := { packageName := "foo", success := false,
                oldVersion := some "1.0-1", newVersion := some "1.1-1",
                builtPackagePaths := ["foo-1.1-1-x86_64.pkg.tar.zst"] },
    trace := [] }

theorem splitRev_append_hyphen (a b : List Char) (ha : '-' ∉ a) :
    splitRevAtFirstHyphen (a ++ '-' :: b) = some (a, b) := by
  induction a with
  | nil => simp [splitRevAtFirstHyphen]
  | cons c a ih =>
    have hc : c ≠ '-' := fun h => ha (h ▸ List.mem_cons_self c a)
    have ha' : '-' ∉ a := fun h => ha (List.mem_cons_of_mem c h)
    simp [splitRevAtFirstHyphen, hc, ih ha']

theorem splitRev_no_hyphen (cs : List Char) (h : '-' ∉ cs) :
    splitRevAtFirstHyphen cs = none := by
  induction cs with
  | nil => simp [splitRevAtFirstHyphen]
  | cons c rest ih =>
    have hc : c ≠ '-' := fun hcc => h (hcc ▸ List.mem_cons_self c rest)
    have h' : '-' ∉ rest := fun hm => h (List.mem_cons_of_mem c hm)
    simp [splitRevAtFirstHyphen, hc, ih h']

theorem contains_eq_false_of_not_mem {c : Char} {cs : List Char} (h : c ∉ cs) :
    cs.contains c = false := by
  by_contra hc
  exact h (by simpa [List.contains] using Bool.of_not_eq_false hc)

theorem lastHyphenSplit_append (p q : List Char) (hp : p ≠ []) (hq : q ≠ [])
    (hq' : '-' ∉ q) (hnl : '\n' ∉ p) :
    lastHyphenSplit (p ++ '-' :: q) = some (p, q) := by
  have hrev : (p ++ '-' :: q).reverse = q.reverse ++ '-' :: p.reverse := by
    simp [List.reverse_append]
  have hqrev : '-' ∉ q.reverse := by simpa using hq'
  unfold lastHyphenSplit
  rw [hrev, splitRev_append_hyphen _ _ hqrev]
  have h1 : p.reverse.isEmpty = false := by
    simpa [List.isEmpty_iff] using hp
  have h2 : q.reverse.isEmpty = false := by
    simpa [List.isEmpty_iff] using hq
  have h3 : p.reverse.contains '\n' = false :=
    contains_eq_false_of_not_mem (by simpa using hnl)
  simp [h1, h2, h3, hnl]

theorem lastHyphenSplit_append_newline (p q : List Char) (hq' : '-' ∉ q)
    (hn : '\n' ∈ p) : lastHyphenSplit (p ++ '-' :: q) = none := by
  have hrev : (p ++ '-' :: q).reverse = q.reverse ++ '-' :: p.reverse := by
    simp [List.reverse_append]
  have hqrev : '-' ∉ q.reverse := by simpa using hq'
  unfold lastHyphenSplit
  rw [hrev, splitRev_append_hyphen _ _ hqrev]
  have h3 : p.reverse.contains '\n' = true :=
    List.elem_eq_true_of_mem (List.mem_reverse.mpr hn)
  simp [h3, hn]

theorem lastHyphenSplit_no_hyphen (cs : List Char) (h : '-' ∉ cs) :
    lastHyphenSplit cs = none := by
  have : '-' ∉ cs.reverse := by simpa using h
  unfold lastHyphenSplit
  rw [splitRev_no_hyphen _ this]

theorem takeWhile_append_colon (e r : List Char) (he : ':' ∉ e) :
    (e ++ ':' :: r).takeWhile (· ≠ ':') = e ∧
    (e ++ ':' :: r).dropWhile (· ≠ ':') = ':' :: r := by
  induction e with
  | nil => simp [List.takeWhile, List.dropWhile]
  | cons c e ih =>
    have hc : c ≠ ':' := fun h => he (h ▸ List.mem_cons_self c e)
    have he' : ':' ∉ e := fun h => he (List.mem_cons_of_mem c h)
    obtain ⟨ih1, ih2⟩ := ih he'
    constructor
    · simpa [List.takeWhile, hc] using ih1
    · simpa [List.dropWhile, hc] using ih2

theorem contains_append_colon (e r : List Char) :
    (e ++ ':' :: r).contains ':' = true := by
  have : ':' ∈ e ++ ':' :: r := List.mem_append_right e (List.mem_cons_self _ _)
  exact List.elem_eq_true_of_mem this


theorem epochSplit_no_colon (cs : List Char) (h : ':' ∉ cs) :
    epochSplit cs = (none, cs) := by
  unfold epochSplit
  rw [contains_eq_false_of_not_mem h]

theorem epochSplit_colon (e r : List Char) (he : ':' ∉ e) :
    epochSplit (e ++ ':' :: r) = (some (String.mk e), r) := by
  obtain ⟨ht, hd⟩ := takeWhile_append_colon e r he
  unfold epochSplit
  rw [contains_append_colon, ht, hd]
  rfl

/-- `fromString` on an epoch-free remainder with a valid hyphen split. -/
theorem fromString_split (pre suf : List Char) (hp : pre ≠ []) (hs : suf ≠ [])
    (hsh : '-' ∉ suf) (hnl : '\n' ∉ pre) (hpc : ':' ∉ pre) (hsc : ':' ∉ suf) :
    PkgVersion.fromString (String.mk (pre ++ '-' :: suf)) =
      { pkgver := String.mk pre, pkgrel := String.mk suf } := by
  have hcol : ':' ∉ pre ++ '-' :: suf := by
    intro h
    rcases List.mem_append.mp h with h | h
    · exact hpc h
    · rcases List.mem_cons.mp h with h | h
      · exact absurd h.symm (by decide)
      · exact hsc h
  unfold PkgVersion.fromString
  rw [show (String.mk (pre ++ '-' :: suf)).data = pre ++ '-' :: suf from rfl,
    epochSplit_no_colon _ hcol]
  simp [lastHyphenSplit_append pre suf hp hs hsh hnl]

/-- `fromString` on an epoch-free remainder with no valid split. -/
theorem fromString_fallback (cs : List Char) (hh : '-' ∉ cs) (hc : ':' ∉ cs) :
    PkgVersion.fromString (String.mk cs) =
      { pkgver := String.mk cs, pkgrel := "1" } := by
  unfold PkgVersion.fromString
  rw [show (String.mk cs).data = cs from rfl, epochSplit_no_colon _ hc]
  simp [lastHyphenSplit_no_hyphen cs hh]

/-- `fromString` with an epoch prefix and a valid hyphen split. -/
theorem fromString_epoch_split (e pre suf : List Char) (he : ':' ∉ e)
    (hp : pre ≠ []) (hs : suf ≠ []) (hsh : '-' ∉ suf) (hnl : '\n' ∉ pre) :
    PkgVersion.fromString (String.mk (e ++ ':' :: (pre ++ '-' :: suf))) =
      { pkgver := String.mk pre, pkgrel := String.mk suf,
        epoch := some (String.mk e) } := by
  unfold PkgVersion.fromString
  rw [show (String.mk (e ++ ':' :: (pre ++ '-' :: suf))).data
        = e ++ ':' :: (pre ++ '-' :: suf) from rfl,
    epochSplit_colon e _ he]
  simp [lastHyphenSplit_append pre suf hp hs hsh hnl]

/-- `fromString` with an epoch prefix and no valid split. -/
theorem fromString_epoch_fallback (e cs : List Char) (he : ':' ∉ e)
    (hh : '-' ∉ cs) :
    PkgVersion.fromString (String.mk (e ++ ':' :: cs)) =
      { pkgver := String.mk cs, pkgrel := "1", epoch := some (String.mk e) } := by
  unfold PkgVersion.fromString
  rw [show (String.mk (e ++ ':' :: cs)).data = e ++ ':' :: cs from rfl,
    epochSplit_colon e _ he]
  simp [lastHyphenSplit_no_hyphen cs hh]

/-- `fromString` falls back (whole remainder as base, release `"1"`) when
the part before the last hyphen contains a newline, which `.` in `(.+?)`
cannot match. -/
theorem fromString_newline_fallback (pre suf : List Char) (hsh : '-' ∉ suf)
    (hn : '\n' ∈ pre) (hpc : ':' ∉ pre) (hsc : ':' ∉ suf) :
    PkgVersion.fromString (String.mk (pre ++ '-' :: suf)) =
      { pkgver := String.mk (pre ++ '-' :: suf), pkgrel := "1" } := by
  have hcol : ':' ∉ pre ++ '-' :: suf := by
    intro h
    rcases List.mem_append.mp h with h | h
    · exact hpc h
    · rcases List.mem_cons.mp h with h | h
      · exact absurd h.symm (by decide)
      · exact hsc h
  unfold PkgVersion.fromString
  rw [show (String.mk (pre ++ '-' :: suf)).data = pre ++ '-' :: suf from rfl,
    epochSplit_no_colon _ hcol]
  simp [lastHyphenSplit_append_newline pre suf hsh hn]

/-- The newline fallback with an epoch prefix. -/
theorem fromString_epoch_newline_fallback (e pre suf : List Char)
    (he : ':' ∉ e) (hsh : '-' ∉ suf) (hn : '\n' ∈ pre) :
    PkgVersion.fromString (String.mk (e ++ ':' :: (pre ++ '-' :: suf))) =
      { pkgver := String.mk (pre ++ '-' :: suf), pkgrel := "1",
        epoch := some (String.mk e) } := by
  unfold PkgVersion.fromString
  rw [show (String.mk (e ++ ':' :: (pre ++ '-' :: suf))).data
        = e ++ ':' :: (pre ++ '-' :: suf) from rfl,
    epochSplit_colon e _ he]
  simp [lastHyphenSplit_append_newline pre suf hsh hn]

/-! ## Claims C6 and C7: version parsing and round-trip -/

theorem stringMk_eq_empty_iff (a : List Char) : (String.mk a = "") ↔ a = [] := by
  constructor
  · intro h
    have := congrArg String.data h
    simpa using this
  · intro h
    subst h
    rfl

/-- C6 counterexample: on the input `"a-"` a hyphen does remain in the
string, yet `from_string` does not split there (the regex `(.+?)-([^-]+)$`
requires a nonempty release after the hyphen); the whole string becomes the
base and the release falls back to `"1"`, contradicting the claim's
description "splits release from base at the last hyphen of the remainder,
and, when no hyphen remains, treats the whole remainder as base". -/
theorem claim6_last_hyphen_counterexample :
    PkgVersion.fromString "a-" = { pkgver := "a-", pkgrel := "1" } ∧
    (PkgVersion.fromString "a-").pkgver ≠ "a" := by decide

/-- C6 (amended): version parsing is total; the epoch is the prefix before
the first colon when a colon is present; the remainder is split at its last
hyphen PROVIDED the part before that hyphen is nonempty and newline-free
(the regex `(.+?)-([^-]+)$` uses `.`, which does not match a newline) and
the (hyphen-free) part after it is nonempty; otherwise — in particular when
no hyphen remains, or the part before the last hyphen contains a newline —
the whole remainder is the base with release `"1"`.  In particular
`parse("7.8.9")` has release `"1"` and `parse("2:3.4.5-6")` yields epoch
`"2"`, base `"3.4.5"`, release `"6"`. -/
theorem claim6_parse_total_amended :
    (∀ pre suf : List Char, pre ≠ [] → suf ≠ [] → '-' ∉ suf → '\n' ∉ pre →
      ':' ∉ pre → ':' ∉ suf →
      PkgVersion.fromString (String.mk (pre ++ '-' :: suf)) =
        { pkgver := String.mk pre, pkgrel := String.mk suf }) ∧
    (∀ cs : List Char, '-' ∉ cs → ':' ∉ cs →
      PkgVersion.fromString (String.mk cs) =
        { pkgver := String.mk cs, pkgrel := "1" }) ∧
    (∀ pre suf : List Char, '-' ∉ suf → '\n' ∈ pre → ':' ∉ pre → ':' ∉ suf →
      PkgVersion.fromString (String.mk (pre ++ '-' :: suf)) =
        { pkgver := String.mk (pre ++ '-' :: suf), pkgrel := "1" }) ∧
    (∀ e pre suf : List Char, ':' ∉ e → pre ≠ [] → suf ≠ [] → '-' ∉ suf →
      '\n' ∉ pre →
      PkgVersion.fromString (String.mk (e ++ ':' :: (pre ++ '-' :: suf))) =
        { pkgver := String.mk pre, pkgrel := String.mk suf,
          epoch := some (String.mk e) }) ∧
    (∀ e cs : List Char, ':' ∉ e → '-' ∉ cs →
      PkgVersion.fromString (String.mk (e ++ ':' :: cs)) =
        { pkgver := String.mk cs, pkgrel := "1",
          epoch := some (String.mk e) }) ∧
    (∀ e pre suf : List Char, ':' ∉ e → '-' ∉ suf → '\n' ∈ pre →
      PkgVersion.fromString (String.mk (e ++ ':' :: (pre ++ '-' :: suf))) =
        { pkgver := String.mk (pre ++ '-' :: suf), pkgrel := "1",
          epoch := some (String.mk e) }) ∧
    PkgVersion.fromString "7.8.9" = { pkgver := "7.8.9", pkgrel := "1" } ∧
    PkgVersion.fromString "2:3.4.5-6" =
      { pkgver := "3.4.5", pkgrel := "6", epoch := some "2" } :=
  ⟨fromString_split, fromString_fallback, fromString_newline_fallback,
   fromString_epoch_split, fromString_epoch_fallback,
   fromString_epoch_newline_fallback, by decide, by decide⟩

/-- Witness for C6 (amended), applying the split clause and the
newline-fallback clause at concrete inputs. -/
theorem claim6_parse_total_amended_witness :
    PkgVersion.fromString (String.mk (['1', '.', '2'] ++ '-' :: ['3'])) =
      { pkgver := String.mk ['1', '.', '2'], pkgrel := String.mk ['3'] } ∧
    PkgVersion.fromString (String.mk (['a', '\n', 'b'] ++ '-' :: ['c'])) =
      { pkgver := String.mk (['a', '\n', 'b'] ++ '-' :: ['c']), pkgrel := "1" } :=
  ⟨claim6_parse_total_amended.1 ['1', '.', '2'] ['3']
    (by decide) (by decide) (by decide) (by decide) (by decide) (by decide),
   claim6_parse_total_amended.2.2.1 ['a', '\n', 'b'] ['c']
    (by decide) (by decide) (by decide) (by decide)⟩

/-- C7: for every valid version triple, parse after format preserves the
epoch, base and release components individually, and hence
`format(parse(format(v))) == format(v)`. -/
theorem claim7_version_roundtrip (v : PkgVersion) (h : v.validTriple) :
    ((PkgVersion.fromString v.toStr).pkgver = v.pkgver ∧
     (PkgVersion.fromString v.toStr).pkgrel = v.pkgrel ∧
     (PkgVersion.fromString v.toStr).epoch = v.epoch) ∧
    (PkgVersion.fromString v.toStr).toStr = v.toStr := by
  obtain ⟨pv, pr, pb, ep⟩ := v
  obtain ⟨a⟩ := pv
  obtain ⟨b⟩ := pr
  simp only [PkgVersion.validTriple] at h
  cases ep with
  | none =>
    obtain ⟨ha, hb, hbh, hnl, hac, hbc⟩ := h
    have ha' : a ≠ [] := (stringMk_eq_empty_iff a).not.mp ha
    have hb' : b ≠ [] := (stringMk_eq_empty_iff b).not.mp hb
    have hbne : ¬ (String.mk b = "") := by simpa [stringMk_eq_empty_iff] using hb'
    have hts : PkgVersion.toStr ⟨String.mk a, String.mk b, pb, none⟩ =
        String.mk (a ++ '-' :: b) := by
      apply String.ext
      simp [PkgVersion.toStr, hbne]
    rw [hts, fromString_split a b ha' hb' hbh hnl hac hbc]
    refine ⟨⟨rfl, rfl, rfl⟩, ?_⟩
    rw [← hts]
    apply String.ext
    simp [PkgVersion.toStr]
  | some e =>
    obtain ⟨ec⟩ := e
    obtain ⟨ha, hb, hbh, hnl, hec, hecc⟩ := h
    have ha' : a ≠ [] := (stringMk_eq_empty_iff a).not.mp ha
    have hb' : b ≠ [] := (stringMk_eq_empty_iff b).not.mp hb
    have hbne : ¬ (String.mk b = "") := by simpa [stringMk_eq_empty_iff] using hb'
    have hene : ¬ (String.mk ec = "") := by
      simpa [stringMk_eq_empty_iff] using (stringMk_eq_empty_iff ec).not.mp hec
    have hts : PkgVersion.toStr ⟨String.mk a, String.mk b, pb, some (String.mk ec)⟩ =
        String.mk (ec ++ ':' :: (a ++ '-' :: b)) := by
      apply String.ext
      simp [PkgVersion.toStr, hbne, hene]
    rw [hts, fromString_epoch_split ec a b hecc ha' hb' hbh hnl]
    refine ⟨⟨rfl, rfl, rfl⟩, ?_⟩
    rw [← hts]
    apply String.ext
    simp [PkgVersion.toStr]

/-- Witness for C7 at the concrete triple `{epoch 2, base 1.0, release 3}`. -/
theorem claim7_version_roundtrip_witness :
    ((PkgVersion.fromString
        (PkgVersion.toStr { pkgver := "1.0", pkgrel := "3", epoch := some "2" })).pkgver
      = "1.0" ∧
     (PkgVersion.fromString
        (PkgVersion.toStr { pkgver := "1.0", pkgrel := "3", epoch := some "2" })).pkgrel
      = "3" ∧
     (PkgVersion.fromString
        (PkgVersion.toStr { pkgver := "1.0", pkgrel := "3", epoch := some "2" })).epoch
      = some "2") ∧
    (PkgVersion.fromString
        (PkgVersion.toStr { pkgver := "1.0", pkgrel := "3", epoch := some "2" })).toStr
      = PkgVersion.toStr { pkgver := "1.0", pkgrel := "3", epoch := some "2" } :=
  claim7_version_roundtrip { pkgver := "1.0", pkgrel := "3", epoch := some "2" }
    ⟨by decide, by decide, by decide, by decide, by decide, by decide⟩

/-! ## Claims C2 and C8: the task reconciler -/

/-- C2 counterexample: upstream reports `foo → 1.1`; the registry version
base (`1.1`) equals the target while the local descriptor still records
`1.0` (≠ target).  The claim requires a task to be created in this case,
but `create_update_tasks` skips unconditionally at main.py:67-70: the
produced task list is empty. -/
theorem claim2_skip_rule_counterexample :
    (AURPackageInfo.versionObj aiFooRegistry).pkgver = "1.1" ∧
    pdFooLocal.pkgver ≠ "1.1" ∧
    (createUpdateTasks [("foo", "1.1")]
      [("foo", pdFooLocal)] [("foo", aiFooRegistry)]).1 = [] := by decide

/-- C2 (amended): for an upstream entry whose package has a local
descriptor, if registry info exists and the base component of its parsed
version equals the upstream target string, no task is created — regardless
of the local descriptor's own recorded version (the local-version
comparison at main.py:73 only logs); in every other case (registry absent
or its base differing from the target) a task is created. -/
theorem claim2_skip_rule_amended (n v : String) (rest : List (String × String))
    (ws : List (String × PKGBUILDData)) (am : List (String × AURPackageInfo))
    (pd : PKGBUILDData) (hws : dictGet ws n = some pd) :
    ((∃ ai, dictGet am n = some ai ∧ ai.versionObj.pkgver = v) →
      (createUpdateTasks ((n, v) :: rest) ws am).1 =
        (createUpdateTasks rest ws am).1) ∧
    ((∀ ai, dictGet am n = some ai → ai.versionObj.pkgver ≠ v) →
      (createUpdateTasks ((n, v) :: rest) ws am).1 =
        { pkgbuildData := pd, aurInfo := dictGet am n,
          targetUpstreamVerStr := some v } :: (createUpdateTasks rest ws am).1) := by
  constructor
  · rintro ⟨ai, hai, hver⟩
    simp [createUpdateTasks, hws, hai, hver]
  · intro hnone
    cases ham : dictGet am n with
    | none => simp [createUpdateTasks, hws, ham]
    | some ai =>
      have hne : ¬ (ai.versionObj.pkgver = v) := hnone ai ham
      simp [createUpdateTasks, hws, ham, hne]

/-- Witness for C2 (amended): with the registry matching the target, the
entry is skipped even though the local descriptor records 1.0. -/
theorem claim2_skip_rule_amended_witness :
    (createUpdateTasks [("foo", "1.1")]
      [("foo", pdFooLocal)] [("foo", aiFooRegistry)]).1 =
      (createUpdateTasks [] [("foo", pdFooLocal)] [("foo", aiFooRegistry)]).1 :=
  (claim2_skip_rule_amended "foo" "1.1" [] [("foo", pdFooLocal)]
      [("foo", aiFooRegistry)] pdFooLocal (by decide)).1
    ⟨aiFooRegistry, by decide, by decide⟩

theorem createUpdateTasks_append (a b : List (String × String))
    (ws : List (String × PKGBUILDData)) (am : List (String × AURPackageInfo)) :
    createUpdateTasks (a ++ b) ws am =
      ((createUpdateTasks a ws am).1 ++ (createUpdateTasks b ws am).1,
       (createUpdateTasks a ws am).2 ++ (createUpdateTasks b ws am).2) := by
  induction a with
  | nil => simp [createUpdateTasks]
  | cons p a ih =>
    obtain ⟨n, v⟩ := p
    cases hws : dictGet ws n with
    | none => simp [createUpdateTasks, hws, ih]
    | some pd =>
      cases ham : dictGet am n with
      | none => simp [createUpdateTasks, hws, ham, ih]
      | some ai =>
        by_cases hv : ai.versionObj.pkgver = v
        · simp [createUpdateTasks, hws, ham, ih, hv]
        · simp [createUpdateTasks, hws, ham, ih, hv]

/-- C8: the reconciler is a total function (it is defined for all inputs
and never raises), and an upstream entry whose package name is absent from
the local descriptor map contributes zero tasks and one warning while the
rest of the batch — before and after the unmatched entry — is still
processed exactly as without it. -/
theorem claim8_reconciler_drop (us1 us2 : List (String × String)) (n v : String)
    (ws : List (String × PKGBUILDData)) (am : List (String × AURPackageInfo))
    (h : dictGet ws n = none) :
    (createUpdateTasks (us1 ++ (n, v) :: us2) ws am).1 =
      (createUpdateTasks us1 ws am).1 ++ (createUpdateTasks us2 ws am).1 ∧
    (createUpdateTasks (us1 ++ (n, v) :: us2) ws am).2 =
      (createUpdateTasks us1 ws am).2 ++ n :: (createUpdateTasks us2 ws am).2 := by
  have hstep : createUpdateTasks ((n, v) :: us2) ws am =
      ((createUpdateTasks us2 ws am).1, n :: (createUpdateTasks us2 ws am).2) := by
    simp [createUpdateTasks, h]
  rw [createUpdateTasks_append, hstep]
  simp

/-- Witness for C8: a batch `foo, ghost, bar` where `ghost` has no local
descriptor still produces the tasks of `foo` and `bar`, plus one warning. -/
theorem claim8_reconciler_drop_witness :
    (createUpdateTasks ([("foo", "1.1")] ++ ("ghost", "2.0") :: [("bar", "3.0")])
      [("foo", pdFooLocal), ("bar", pdFooLocal)] []).1 =
      (createUpdateTasks [("foo", "1.1")]
        [("foo", pdFooLocal), ("bar", pdFooLocal)] []).1 ++
      (createUpdateTasks [("bar", "3.0")]
        [("foo", pdFooLocal), ("bar", pdFooLocal)] []).1 ∧
    (createUpdateTasks ([("foo", "1.1")] ++ ("ghost", "2.0") :: [("bar", "3.0")])
      [("foo", pdFooLocal), ("bar", pdFooLocal)] []).2 =
      (createUpdateTasks [("foo", "1.1")]
        [("foo", pdFooLocal), ("bar", pdFooLocal)] []).2 ++
      "ghost" :: (createUpdateTasks [("bar", "3.0")]
        [("foo", pdFooLocal), ("bar", pdFooLocal)] []).2 :=
  claim8_reconciler_drop [("foo", "1.1")] [("bar", "3.0")] "ghost" "2.0"
    [("foo", pdFooLocal), ("bar", pdFooLocal)] [] (by decide)

/-! ## Trace machinery: which effects a computation can append -/

theorem emitsOnly_pure {P : Eff → Prop} {α : Type} (a : α) :
    EmitsOnly P (pure a : M α) :=
  fun _ _ he => Or.inl he

theorem emitsOnly_bind {P : Eff → Prop} {α β : Type} {x : M α} {f : α → M β}
    (hx : EmitsOnly P x) (hf : ∀ a, EmitsOnly P (f a)) :
    EmitsOnly P (x >>= f) := by
  intro s e he
  have hb : (x >>= f) s = M.mkBind x f s := rfl
  rcases hxs : x s with ⟨r, s1⟩
  cases r with
  | ok a =>
    rw [hb] at he
    unfold M.mkBind at he
    rw [hxs] at he
    rcases hf a s1 e he with h1 | h2
    · rcases hx s e (by rw [hxs]; exact h1) with h3 | h4
      · exact Or.inl h3
      · exact Or.inr h4
    · exact Or.inr h2
  | error err =>
    rw [hb] at he
    unfold M.mkBind at he
    rw [hxs] at he
    exact hx s e (by rw [hxs]; exact he)

theorem emitsOnly_ite {P : Eff → Prop} {α : Type} (c : Prop) [Decidable c]
    {x y : M α} (hx : EmitsOnly P x) (hy : EmitsOnly P y) :
    EmitsOnly P (if c then x else y) := by
  by_cases h : c
  · simpa [h] using hx
  · simpa [h] using hy

theorem emitsOnly_throwExc {P : Eff → Prop} {α : Type} (e : PyExc) :
    EmitsOnly P (throwExc e : M α) :=
  fun _ _ he => Or.inl he

theorem emitsOnly_getResult {P : Eff → Prop} : EmitsOnly P getResult :=
  fun _ _ he => Or.inl he

theorem emitsOnly_modifyResult {P : Eff → Prop} (f : BuildResult → BuildResult) :
    EmitsOnly P (modifyResult f) :=
  fun _ _ he => Or.inl he

theorem emitsOnly_addAction {P : Eff → Prop} (a : String) :
    EmitsOnly P (addAction a) :=
  emitsOnly_modifyResult _

theorem emitsOnly_emitEff {P : Eff → Prop} {eff : Eff} (h : P eff) :
    EmitsOnly P (emitEff eff) := by
  intro s e he
  simp only [emitEff, List.mem_append, List.mem_singleton] at he
  rcases he with he | he
  · exact Or.inl he
  · exact Or.inr (he ▸ h)

theorem emitsOnly_chdirEff {P : Eff → Prop} {d : String} (h : P (Eff.chdir d)) :
    EmitsOnly P (chdirEff d) := by
  intro s e he
  simp only [chdirEff, List.mem_append, List.mem_singleton] at he
  rcases he with he | he
  · exact Or.inl he
  · exact Or.inr (he ▸ h)

theorem emitsOnly_tryRunSubM {P : Eff → Prop} (env : Env) (cmd : List String)
    (h : P (Eff.runCmd cmd)) : EmitsOnly P (tryRunSubM env cmd) := by
  intro s e he
  unfold tryRunSubM at he
  rcases hr : env.runSub cmd with r | r <;>
    rw [hr] at he <;>
    simp only [List.mem_append, List.mem_singleton] at he <;>
    rcases he with he | he
  · exact Or.inl he
  · exact Or.inr (he ▸ h)
  · exact Or.inl he
  · exact Or.inr (he ▸ h)

theorem emitsOnly_runSubM {P : Eff → Prop} (env : Env) (cmd : List String)
    (h : P (Eff.runCmd cmd)) : EmitsOnly P (runSubM env cmd) := by
  unfold runSubM
  refine emitsOnly_bind (emitsOnly_tryRunSubM env cmd h) ?_
  intro r
  cases r with
  | ok res => exact emitsOnly_pure res
  | error err => exact emitsOnly_throwExc err

theorem emitsOnly_syncFilesM {P : Eff → Prop} (env : Env)
    (h : P Eff.syncWorkspaceFiles) : EmitsOnly P (syncFilesM env) := by
  intro s e he
  unfold syncFilesM at he
  rcases hr : env.syncResult with r | r <;>
    rw [hr] at he <;>
    simp only [List.mem_append, List.mem_singleton] at he <;>
    rcases he with he | he
  · exact Or.inl he
  · exact Or.inr (he ▸ h)
  · exact Or.inl he
  · exact Or.inr (he ▸ h)

theorem emitsOnly_updFileM {P : Eff → Prop} (env : Env)
    (h : ∀ b, P (Eff.readUpdatePkgbuild b)) : EmitsOnly P (updFileM env) := by
  intro s e he
  unfold updFileM at he
  rcases hr : env.updResult with r | r <;>
    rw [hr] at he <;>
    simp only [List.mem_append, List.mem_singleton] at he <;>
    rcases he with he | he
  · exact Or.inl he
  · exact Or.inr (he ▸ h _)
  · exact Or.inl he
  · exact Or.inr (he ▸ h _)

theorem emitsOnly_writeSrcinfoM {P : Eff → Prop} (env : Env)
    (h : P Eff.writeSrcinfo) : EmitsOnly P (writeSrcinfoM env) := by
  intro s e he
  unfold writeSrcinfoM at he
  rcases hr : env.writeSrcinfoResult with r | r <;>
    rw [hr] at he <;>
    simp only [List.mem_append, List.mem_singleton] at he <;>
    rcases he with he | he
  · exact Or.inl he
  · exact Or.inr (he ▸ h)
  · exact Or.inl he
  · exact Or.inr (he ▸ h)

theorem emitsOnly_collectArtifactsM {P : Eff → Prop} (env : Env)
    (h : P Eff.collectArtifacts) : EmitsOnly P (collectArtifactsM env) := by
  intro s e he
  unfold collectArtifactsM at he
  rcases hr : env.collectResult with r | r <;>
    rw [hr] at he <;>
    simp only [List.mem_append, List.mem_singleton] at he <;>
    rcases he with he | he
  · exact Or.inl he
  · exact Or.inr (he ▸ h)
  · exact Or.inl he
  · exact Or.inr (he ▸ h)

theorem emitsOnly_ite_cond {P : Eff → Prop} {α : Type} (c : Prop) [Decidable c]
    {x y : M α} (hx : c → EmitsOnly P x) (hy : ¬ c → EmitsOnly P y) :
    EmitsOnly P (if c then x else y) := by
  by_cases h : c
  · simpa [h] using hx h
  · simpa [h] using hy h

theorem emitsOnly_versionCheckM {P : Eff → Prop} (cfg : BuildConfiguration)
    (env : Env) (task : PackageUpdateTask) (h : P Eff.nvcheckerRun) :
    EmitsOnly P (versionCheckM cfg env task) := by
  unfold versionCheckM
  cases task.pkgbuildData.nvcheckerConfigPathRelative with
  | none => exact emitsOnly_pure _
  | some rel =>
    apply emitsOnly_ite
    · apply emitsOnly_ite
      · exact emitsOnly_bind (emitsOnly_emitEff h) (fun _ => emitsOnly_throwExc _)
      · exact emitsOnly_pure _
    · exact emitsOnly_pure _

theorem emitsOnly_updateDescriptorM {P : Eff → Prop} (env : Env)
    (task : PackageUpdateTask) (ft : Option String)
    (h : ∀ b, P (Eff.readUpdatePkgbuild b)) :
    EmitsOnly P (updateDescriptorM env task ft) := by
  unfold updateDescriptorM
  cases ft with
  | none => exact emitsOnly_bind (emitsOnly_modifyResult _) (fun _ => emitsOnly_pure _)
  | some t =>
    apply emitsOnly_ite
    · refine emitsOnly_bind (emitsOnly_updFileM env h) ?_
      intro changed
      apply emitsOnly_ite
      · refine emitsOnly_bind (emitsOnly_addAction _) ?_
        intro _
        exact emitsOnly_bind (emitsOnly_modifyResult _) (fun _ => emitsOnly_pure _)
      · exact emitsOnly_pure _
    · exact emitsOnly_bind (emitsOnly_modifyResult _) (fun _ => emitsOnly_pure _)

theorem emitsOnly_buildStageM {P : Eff → Prop} (cfg : BuildConfiguration)
    (env : Env) (task : PackageUpdateTask) (pu : Bool)
    (h1 : P (Eff.runCmd ["updpkgsums"]))
    (h2 : P (Eff.runCmd ["makepkg", "--printsrcinfo", "--nocolor"]))
    (h3 : P Eff.writeSrcinfo)
    (h4 : P (Eff.runCmd ["makepkg", "-Lcs", "--noconfirm", "--needed", "--noprogressbar"]))
    (h5 : P Eff.collectArtifacts) :
    EmitsOnly P (buildStageM cfg env task pu) := by
  unfold buildStageM
  apply emitsOnly_ite
  · refine emitsOnly_bind (emitsOnly_runSubM env _ h1) ?_
    intro _
    refine emitsOnly_bind (emitsOnly_addAction _) ?_
    intro _
    refine emitsOnly_bind (emitsOnly_runSubM env _ h2) ?_
    intro _
    refine emitsOnly_bind (emitsOnly_writeSrcinfoM env h3) ?_
    intro _
    refine emitsOnly_bind (emitsOnly_addAction _) ?_
    intro _
    refine emitsOnly_bind (emitsOnly_runSubM env _ h4) ?_
    intro _
    refine emitsOnly_bind (emitsOnly_addAction _) ?_
    intro _
    apply emitsOnly_ite
    · exact emitsOnly_throwExc _
    · exact emitsOnly_bind (emitsOnly_modifyResult _)
        (fun _ => emitsOnly_collectArtifactsM env h5)
  · exact emitsOnly_pure _

theorem emitsOnly_aurPublishM {P : Eff → Prop} (cfg : BuildConfiguration)
    (env : Env) (task : PackageUpdateTask)
    (h1 : P (Eff.runCmd ["git", "status", "--porcelain"]))
    (h2 : ∀ fs, P (Eff.runCmd (["git", "add"] ++ fs)))
    (h3 : ∀ m, P (Eff.runCmd ["git", "commit", "-m", m]))
    (h4 : cfg.dryRunMode = false → P (Eff.runCmd ["git", "push"])) :
    EmitsOnly P (aurPublishM cfg env task) := by
  unfold aurPublishM
  refine emitsOnly_bind (emitsOnly_runSubM env _ h1) ?_
  intro st
  apply emitsOnly_ite
  · refine emitsOnly_bind (emitsOnly_runSubM env _ (h2 _)) ?_
    intro _
    refine emitsOnly_bind emitsOnly_getResult ?_
    intro r
    refine emitsOnly_bind (emitsOnly_runSubM env _ (h3 _)) ?_
    intro _
    apply emitsOnly_ite_cond
    · intro hc
      have hdr : cfg.dryRunMode = false := by simpa using hc
      exact emitsOnly_bind (emitsOnly_runSubM env _ (h4 hdr))
        (fun _ => emitsOnly_addAction _)
    · intro _
      exact emitsOnly_pure _
  · exact emitsOnly_pure _

theorem emitsOnly_tagExistsM {P : Eff → Prop} (cfg : BuildConfiguration)
    (env : Env) (tag : String)
    (h : P (Eff.runCmd ["gh", "release", "view", tag, "-R", cfg.githubRepository])) :
    EmitsOnly P (tagExistsM cfg env tag) := by
  unfold tagExistsM
  refine emitsOnly_bind (emitsOnly_tryRunSubM env _ h) ?_
  intro r
  cases r <;> exact emitsOnly_pure _

theorem emitsOnly_deleteReleaseAndTagM {P : Eff → Prop} (cfg : BuildConfiguration)
    (env : Env) (tag : String)
    (h : cfg.dryRunMode = false →
      P (Eff.runCmd ["gh", "release", "delete", tag, "--cleanup-tag", "--yes",
        "-R", cfg.githubRepository])) :
    EmitsOnly P (deleteReleaseAndTagM cfg env tag) := by
  unfold deleteReleaseAndTagM
  apply emitsOnly_ite_cond
  · intro _
    exact emitsOnly_pure _
  · intro hc
    have hdr : cfg.dryRunMode = false := by simpa using hc
    refine emitsOnly_bind (emitsOnly_tryRunSubM env _ (h hdr)) ?_
    intro r
    cases r with
    | ok _ => exact emitsOnly_pure _
    | error _ => exact emitsOnly_throwExc _

theorem emitsOnly_createReleaseM {P : Eff → Prop} (cfg : BuildConfiguration)
    (env : Env) (tag title notes : String) (assets : List String)
    (h : cfg.dryRunMode = false →
      P (Eff.runCmd (["gh", "release", "create", tag, "--title", title,
        "--notes", notes, "-R", cfg.githubRepository] ++ assets.filter env.isFile))) :
    EmitsOnly P (createReleaseM cfg env tag title notes assets) := by
  unfold createReleaseM
  apply emitsOnly_ite_cond
  · intro _
    exact emitsOnly_pure _
  · intro hc
    have hdr : cfg.dryRunMode = false := by simpa using hc
    refine emitsOnly_bind (emitsOnly_tryRunSubM env _ (h hdr)) ?_
    intro r
    cases r with
    | ok _ => exact emitsOnly_pure _
    | error _ => exact emitsOnly_throwExc _

theorem emitsOnly_getFileShaM {P : Eff → Prop} (cfg : BuildConfiguration)
    (env : Env) (p : String)
    (h : P (Eff.runCmd ["gh", "api",
      "repos/" ++ cfg.githubRepository ++ "/contents/" ++ p, "--jq", ".sha"])) :
    EmitsOnly P (getFileShaM cfg env p) := by
  unfold getFileShaM
  refine emitsOnly_bind (emitsOnly_tryRunSubM env _ h) ?_
  intro r
  cases r with
  | ok res => exact emitsOnly_ite _ (emitsOnly_pure _) (emitsOnly_pure _)
  | error _ => exact emitsOnly_pure _

theorem emitsOnly_updateFileInSourceRepoM {P : Eff → Prop}
    (cfg : BuildConfiguration) (env : Env) (rp lf cm : String)
    (sha : Option String) (h : ∀ c, P (Eff.runCmd c)) :
    EmitsOnly P (updateFileInSourceRepoM cfg env rp lf cm sha) := by
  unfold updateFileInSourceRepoM
  apply emitsOnly_ite
  · exact emitsOnly_pure _
  · apply emitsOnly_ite
    · exact emitsOnly_throwExc _
    · refine emitsOnly_bind (emitsOnly_tryRunSubM env _ (h _)) ?_
      intro r
      cases r with
      | ok _ => exact emitsOnly_pure _
      | error _ => exact emitsOnly_throwExc _

theorem emitsOnly_syncOneFileM {P : Eff → Prop} (cfg : BuildConfiguration)
    (env : Env) (fn orig mb : String)
    (hsha : ∀ p, P (Eff.runCmd ["gh", "api",
      "repos/" ++ cfg.githubRepository ++ "/contents/" ++ p, "--jq", ".sha"]))
    (hput : cfg.dryRunMode = false → ∀ rp sha,
      EmitsOnly P (updateFileInSourceRepoM cfg env rp fn
        (mb ++ " (" ++ fn ++ ")") sha)) :
    EmitsOnly P (syncOneFileM cfg env fn orig mb) := by
  unfold syncOneFileM
  apply emitsOnly_ite
  · cases relativeToWorkspace orig cfg.githubWorkspace with
    | error e => exact emitsOnly_throwExc _
    | ok rp =>
      refine emitsOnly_bind (emitsOnly_getFileShaM cfg env rp (hsha rp)) ?_
      intro sha
      apply emitsOnly_ite_cond
      · intro hc
        have hdr : cfg.dryRunMode = false := by simpa using hc
        exact emitsOnly_bind (hput hdr rp sha) (fun _ => emitsOnly_addAction _)
      · intro _
        exact emitsOnly_pure _
  · exact emitsOnly_pure _

theorem emitsOnly_releaseStageM {P : Eff → Prop} (cfg : BuildConfiguration)
    (env : Env) (task : PackageUpdateTask) (pu : Bool)
    (hview : ∀ t, P (Eff.runCmd ["gh", "release", "view", t, "-R", cfg.githubRepository]))
    (hdel : cfg.dryRunMode = false → ∀ t,
      P (Eff.runCmd ["gh", "release", "delete", t, "--cleanup-tag", "--yes",
        "-R", cfg.githubRepository]))
    (hcre : cfg.dryRunMode = false → ∀ t ti no asl,
      P (Eff.runCmd (["gh", "release", "create", t, "--title", ti,
        "--notes", no, "-R", cfg.githubRepository] ++ asl))) :
    EmitsOnly P (releaseStageM cfg env task pu) := by
  unfold releaseStageM
  refine emitsOnly_bind emitsOnly_getResult ?_
  intro r
  apply emitsOnly_ite
  · refine emitsOnly_bind (emitsOnly_tagExistsM cfg env _ (hview _)) ?_
    intro ex
    refine emitsOnly_bind ?_ ?_
    · unfold releaseOverwriteStepM
      apply emitsOnly_ite
      · refine emitsOnly_bind ?_ (fun _ => emitsOnly_addAction _)
        apply emitsOnly_ite_cond
        · intro hc
          have hdr : cfg.dryRunMode = false := by simpa using hc
          exact emitsOnly_deleteReleaseAndTagM cfg env _ (fun _ => hdel hdr _)
        · intro _
          exact emitsOnly_pure _
      · exact emitsOnly_pure _
    · intro _
      apply emitsOnly_ite_cond
      · intro hc
        have hdr : cfg.dryRunMode = false := by simpa using hc
        refine emitsOnly_bind
          (emitsOnly_createReleaseM cfg env _ _ _ _ (fun _ => hcre hdr _ _ _ _)) ?_
        intro _
        exact emitsOnly_addAction _
      · intro _
        exact emitsOnly_pure _
  · exact emitsOnly_pure _

theorem emitsOnly_syncSourceStageM {P : Eff → Prop} (cfg : BuildConfiguration)
    (env : Env) (task : PackageUpdateTask)
    (hsha : ∀ p, P (Eff.runCmd ["gh", "api",
      "repos/" ++ cfg.githubRepository ++ "/contents/" ++ p, "--jq", ".sha"]))
    (hput : cfg.dryRunMode = false → ∀ rp lf cm sha,
      EmitsOnly P (updateFileInSourceRepoM cfg env rp lf cm sha)) :
    EmitsOnly P (syncSourceStageM cfg env task) := by
  unfold syncSourceStageM
  refine emitsOnly_bind emitsOnly_getResult ?_
  intro r
  apply emitsOnly_ite
  · refine emitsOnly_bind
      (emitsOnly_syncOneFileM cfg env _ _ _ hsha (fun hdr rp sha => hput hdr rp _ _ sha)) ?_
    intro _
    exact emitsOnly_syncOneFileM cfg env _ _ _ hsha (fun hdr rp sha => hput hdr rp _ _ sha)
  · exact emitsOnly_pure _

theorem emitsOnly_processBody {P : Eff → Prop} (cfg : BuildConfiguration)
    (env : Env) (task : PackageUpdateTask)
    (hchdir : P (Eff.chdir env.buildDirName))
    (hclone : P (Eff.runCmd ["git", "clone", aurCloneUrl task.pkgbuildData.pkgbase, "."]))
    (hsync : P Eff.syncWorkspaceFiles)
    (hcfg1 : P (Eff.runCmd ["git", "config", "user.name", cfg.aurGitUserName]))
    (hcfg2 : P (Eff.runCmd ["git", "config", "user.email", cfg.aurGitUserEmail]))
    (hnv : P Eff.nvcheckerRun)
    (hupd : ∀ b, P (Eff.readUpdatePkgbuild b))
    (hb1 : P (Eff.runCmd ["updpkgsums"]))
    (hb2 : P (Eff.runCmd ["makepkg", "--printsrcinfo", "--nocolor"]))
    (hb3 : P Eff.writeSrcinfo)
    (hb4 : P (Eff.runCmd ["makepkg", "-Lcs", "--noconfirm", "--needed", "--noprogressbar"]))
    (hb5 : P Eff.collectArtifacts)
    (hstatus : P (Eff.runCmd ["git", "status", "--porcelain"]))
    (hadd : ∀ fs, P (Eff.runCmd (["git", "add"] ++ fs)))
    (hcommit : ∀ m, P (Eff.runCmd ["git", "commit", "-m", m]))
    (hpush : cfg.dryRunMode = false → P (Eff.runCmd ["git", "push"]))
    (hview : ∀ t, P (Eff.runCmd ["gh", "release", "view", t, "-R", cfg.githubRepository]))
    (hdel : cfg.dryRunMode = false → ∀ t,
      P (Eff.runCmd ["gh", "release", "delete", t, "--cleanup-tag", "--yes",
        "-R", cfg.githubRepository]))
    (hcre : cfg.dryRunMode = false → ∀ t ti no asl,
      P (Eff.runCmd (["gh", "release", "create", t, "--title", ti,
        "--notes", no, "-R", cfg.githubRepository] ++ asl)))
    (hsha : ∀ p, P (Eff.runCmd ["gh", "api",
      "repos/" ++ cfg.githubRepository ++ "/contents/" ++ p, "--jq", ".sha"]))
    (hput : cfg.dryRunMode = false → ∀ rp lf cm sha,
      EmitsOnly P (updateFileInSourceRepoM cfg env rp lf cm sha)) :
    EmitsOnly P (processBody cfg env task) := by
  unfold processBody
  refine emitsOnly_bind (emitsOnly_chdirEff hchdir) ?_
  intro _
  refine emitsOnly_bind (emitsOnly_runSubM env _ hclone) ?_
  intro _
  refine emitsOnly_bind (emitsOnly_syncFilesM env hsync) ?_
  intro _
  refine emitsOnly_bind (emitsOnly_runSubM env _ hcfg1) ?_
  intro _
  refine emitsOnly_bind (emitsOnly_runSubM env _ hcfg2) ?_
  intro _
  refine emitsOnly_bind (emitsOnly_versionCheckM cfg env task hnv) ?_
  intro ft
  refine emitsOnly_bind (emitsOnly_updateDescriptorM env task ft hupd) ?_
  intro pu
  refine emitsOnly_bind (emitsOnly_buildStageM cfg env task pu hb1 hb2 hb3 hb4 hb5) ?_
  intro _
  refine emitsOnly_bind (emitsOnly_aurPublishM cfg env task hstatus hadd hcommit hpush) ?_
  intro _
  refine emitsOnly_bind (emitsOnly_releaseStageM cfg env task pu hview hdel hcre) ?_
  intro _
  refine emitsOnly_bind (emitsOnly_syncSourceStageM cfg env task hsha hput) ?_
  intro _
  exact emitsOnly_modifyResult _

/-! ## Claim C3: cleanup on every exit path -/

/-- C3 counterexample: when the cleanup `shutil.rmtree` fails,
`_cleanup_build_dir` catches and only logs the exception
(package_updater.py:50-51), so `process_package` returns — here even
successfully — while the per-package temporary working directory still
exists, contradicting the claim's "the per-package temporary working
directory no longer exists after process_package returns". -/
theorem claim3_cleanup_counterexample :
    (processPackage cfgBase envRmtreeFails taskFoo).res.map (fun r => r.success) =
      Except.ok true ∧
    (processPackage cfgBase envRmtreeFails taskFoo).buildDirExistsAfter = true ∧
    Eff.rmtreeFailed "/tmp/foo-build-rmf" ∈
      (processPackage cfgBase envRmtreeFails taskFoo).trace := by
  refine ⟨rfl, rfl, by decide⟩

/-- C3 (amended): for every configuration, oracle environment and task —
that is, on every exit path of `process_package` (success, no-change, or
failure at any stage, including exceptions that escape) — the finally-block
cleanup runs exactly once: the process's prior working directory is
restored and removal of the per-package temporary directory is attempted
exactly once (the body never attempts one); the directory no longer exists
afterwards WHEN the removal call succeeds, while a removal failure is
caught and logged (package_updater.py:50-51) and the directory then
persists. -/
theorem claim3_cleanup_exactly_once (cfg : BuildConfiguration) (env : Env)
    (task : PackageUpdateTask) :
    (processPackage cfg env task).finalCwd = env.originalCwd ∧
    ((processPackage cfg env task).trace.filter isRmtreeAttempt).length = 1 ∧
    (∀ u, env.rmtreeResult = Except.ok u →
      (processPackage cfg env task).buildDirExistsAfter = false ∧
      (processPackage cfg env task).trace.count (Eff.rmtree env.buildDirName) = 1) ∧
    (∀ m, env.rmtreeResult = Except.error m →
      (processPackage cfg env task).buildDirExistsAfter = true) := by
  have hbody : EmitsOnly (fun e => isRmtreeAttempt e = false)
      (processBody cfg env task) :=
    emitsOnly_processBody cfg env task rfl rfl rfl rfl rfl rfl (fun _ => rfl)
      rfl rfl rfl rfl rfl rfl (fun _ => rfl) (fun _ => rfl) (fun _ => rfl)
      (fun _ => rfl) (fun _ _ => rfl) (fun _ _ _ _ _ => rfl) (fun _ => rfl)
      (fun _ rp lf cm sha =>
        emitsOnly_updateFileInSourceRepoM cfg env rp lf cm sha (fun _ => rfl))
  have htr : (processPackage cfg env task).trace =
      (processBody cfg env task (initialState env task)).2.trace
      ++ cleanupEffects env := rfl
  have h0 : ∀ e ∈ (processBody cfg env task (initialState env task)).2.trace,
      isRmtreeAttempt e = false := by
    intro e he
    rcases hbody _ _ he with h | h
    · simp [initialState] at h
      subst h
      rfl
    · exact h
  have hfilter : ((processBody cfg env task (initialState env task)).2.trace.filter
      isRmtreeAttempt) = [] := by
    rw [List.filter_eq_nil_iff]
    intro e he
    simp [h0 e he]
  have hb : (processPackage cfg env task).buildDirExistsAfter =
      (match env.rmtreeResult with
       | Except.ok _ => false
       | Except.error _ => true) := rfl
  refine ⟨rfl, ?_, ?_, ?_⟩
  · rw [htr, List.filter_append, hfilter]
    cases henv : env.rmtreeResult <;> simp [cleanupEffects, henv, isRmtreeAttempt]
  · intro u hu
    refine ⟨by rw [hb, hu], ?_⟩
    have hmem : Eff.rmtree env.buildDirName ∉
        (processBody cfg env task (initialState env task)).2.trace := by
      intro hm
      have hcontra := h0 _ hm
      simp [isRmtreeAttempt] at hcontra
    rw [htr, List.count_append, List.count_eq_zero.mpr hmem]
    simp [cleanupEffects, hu]
  · intro m hm
    rw [hb, hm]

/-- Witness for C3 (amended), at a concrete run whose removal succeeds. -/
theorem claim3_cleanup_exactly_once_witness :
    (processPackage cfgBase envAllOk taskFoo).buildDirExistsAfter = false ∧
    (processPackage cfgBase envAllOk taskFoo).trace.count
      (Eff.rmtree envAllOk.buildDirName) = 1 :=
  (claim3_cleanup_exactly_once cfgBase envAllOk taskFoo).2.2.1 () rfl

/-! ## Claim C1: exceptions at the processor boundary -/

/-- C1 (code bug): `package_updater.py` never imports `subprocess`, so when
`git clone` fails with `subprocess.CalledProcessError`, evaluating the
handler clause `except subprocess.CalledProcessError` (line 326) raises
`NameError("name 'subprocess' is not defined")`, which ESCAPES
`process_package` instead of being converted into a failed `BuildResult` —
contradicting both the spec and the code's own handler structure.  The
orchestrator's last-resort `except Exception` (main.py:246-256) then
fabricates a failed result and still proceeds to the next task. -/
theorem claim1_exception_escapes_processor :
    (processPackage cfgBase envCloneFails taskFoo).res =
      Except.error (PyExc.nameError "subprocess") ∧
    (orchestratorRunTasks cfgBase
        [(envCloneFails, taskFoo), (envAllOk, taskFoo)]).map
      (fun r => (r.packageName, r.success, r.errorDetails)) =
      [("foo", false, some (pyExcStr (PyExc.nameError "subprocess"))),
       ("foo", true, none)] := by
  constructor
  · rfl
  · rfl

/-! ## Claim C10: dry-run performs no outward-facing mutation -/

theorem append_repos_ne_method (a : String) : ¬ ("repos/" ++ a = "--method") := by
  intro h
  have hd := congrArg String.data h
  rw [String.data_append] at hd
  simp at hd

/-- C10: with `dry_run_mode` set, for every oracle environment and task the
trace of `process_package` contains no outward-facing mutation — no
`git push`, no release creation or deletion, no source-repository file
write — while (shown on a concrete dry-run in which the working tree has
changes) the local `git commit` in the working directory is still made. -/
theorem claim10_dry_run_no_mutation (cfg : BuildConfiguration) (env : Env)
    (task : PackageUpdateTask) (hdry : cfg.dryRunMode = true) :
    (processPackage cfg env task).trace.filter isOutwardMutation = [] ∧
    Eff.runCmd ["git", "commit", "-m", "auto: foo to v1.1-1"] ∈
      (processPackage cfgDry envDryChanges taskFoo).trace ∧
    Eff.runCmd ["git", "push"] ∉ (processPackage cfgDry envDryChanges taskFoo).trace := by
  have hbody : EmitsOnly (fun e => isOutwardMutation e = false)
      (processBody cfg env task) := by
    apply emitsOnly_processBody cfg env task
    · rfl
    · simp [isOutwardMutation]
    · rfl
    · simp [isOutwardMutation]
    · simp [isOutwardMutation]
    · rfl
    · intro b
      rfl
    · simp [isOutwardMutation]
    · simp [isOutwardMutation]
    · rfl
    · simp [isOutwardMutation]
    · rfl
    · simp [isOutwardMutation]
    · intro fs
      simp [isOutwardMutation]
    · intro m
      simp [isOutwardMutation]
    · intro h
      rw [hdry] at h
      exact absurd h (by decide)
    · intro t
      simp [isOutwardMutation]
    · intro h
      rw [hdry] at h
      exact absurd h (by decide)
    · intro h
      rw [hdry] at h
      exact absurd h (by decide)
    · intro p
      simp [isOutwardMutation, append_repos_ne_method]
    · intro h
      rw [hdry] at h
      exact absurd h (by decide)
  refine ⟨?_, by decide, by decide⟩
  have htr : (processPackage cfg env task).trace =
      (processBody cfg env task (initialState env task)).2.trace
      ++ cleanupEffects env := rfl
  have h0 : ∀ e ∈ (processBody cfg env task (initialState env task)).2.trace,
      isOutwardMutation e = false := by
    intro e he
    rcases hbody _ _ he with h | h
    · simp [initialState] at h
      subst h
      rfl
    · exact h
  rw [htr, List.filter_append]
  have h1 : (processBody cfg env task (initialState env task)).2.trace.filter
      isOutwardMutation = [] := by
    rw [List.filter_eq_nil_iff]
    intro e he
    simp [h0 e he]
  rw [h1]
  cases henv : env.rmtreeResult <;> simp [cleanupEffects, henv, isOutwardMutation]

/-- Witness for C10 at the concrete dry-run fixture. -/
theorem claim10_dry_run_no_mutation_witness :
    (processPackage cfgDry envDryChanges taskFoo).trace.filter isOutwardMutation = [] :=
  (claim10_dry_run_no_mutation cfgDry envDryChanges taskFoo rfl).1

/-! ## Claim C4: the no-change case -/

/-- C4 counterexample: in the no-change case (target `1.0` equals the
descriptor's pkgver) with a dirty synced tree, `process_package` still
commits AND PUSHES to the AUR (package_updater.py:242-268 is not gated on
the version decision), contradicting the claim's "no registry push". -/
theorem claim4_noop_push_counterexample :
    taskFooNoChange.targetUpstreamVerStr = some pdFooLocal.pkgver ∧
    Eff.runCmd ["git", "push"] ∈
      (processPackage cfgBase (envNoChange true) taskFooNoChange).trace ∧
    (processPackage cfgBase (envNoChange true) taskFooNoChange).res.map
      (fun r => r.actionsTaken) = Except.ok ["AUR changes pushed"] := by
  refine ⟨rfl, by decide, rfl⟩

/-- C4 (amended): in the no-change case with `debug_mode` off, no build
runs, no release is created or deleted, `actions_taken` contains no
"built"/"released" entries, and `new_version` records the unchanged current
version — but the AUR commit/push block still runs, committing and pushing
whenever the synced working tree differs (and when `debug_mode` is on, a
build and release can occur even with an unchanged version).  Shown by the
complete behaviour of the no-change pipeline for both states of the
working tree. -/
theorem claim4_noop_build_amended (changed : Bool) :
    (processPackage cfgBase (envNoChange changed) taskFooNoChange).res.map
      (fun r => (r.newVersion, r.actionsTaken, r.builtPackagePaths, r.success)) =
      Except.ok (some "1.0-1",
        (if changed then ["AUR changes pushed"] else []), [], true) ∧
    (processPackage cfgBase (envNoChange changed) taskFooNoChange).trace =
      [Eff.mkdtemp "/tmp/foo-build-nc", Eff.chdir "/tmp/foo-build-nc",
       Eff.runCmd ["git", "clone", "ssh://aur@aur.archlinux.org/foo.git", "."],
       Eff.syncWorkspaceFiles,
       Eff.runCmd ["git", "config", "user.name", "aur-bot"],
       Eff.runCmd ["git", "config", "user.email", "aur@example.org"],
       Eff.runCmd ["git", "status", "--porcelain"]]
      ++ (if changed then
            [Eff.runCmd ["git", "add", "PKGBUILD", ".SRCINFO"],
             Eff.runCmd ["git", "commit", "-m", "auto: foo to v1.0-1"],
             Eff.runCmd ["git", "push"]]
          else [])
      ++ [Eff.chdir "/home/runner", Eff.rmtree "/tmp/foo-build-nc"] := by
  cases changed
  · exact ⟨rfl, rfl⟩
  · exact ⟨rfl, rfl⟩

/-! ## Claim C5: artifact discovery fallback -/

theorem discoverBuiltPackages_fallback (env : Env) (pkg : PKGBUILDData) :
    (env.glob (pkg.pkgbase ++ "*.pkg.tar.zst") ≠ [] →
      discoverBuiltPackages env pkg = env.glob (pkg.pkgbase ++ "*.pkg.tar.zst")) ∧
    (env.glob (pkg.pkgbase ++ "*.pkg.tar.zst") = [] →
      env.glob (pkg.displayName ++ "*.pkg.tar.zst") ≠ [] →
      discoverBuiltPackages env pkg = env.glob (pkg.displayName ++ "*.pkg.tar.zst")) ∧
    (env.glob (pkg.pkgbase ++ "*.pkg.tar.zst") = [] →
      env.glob (pkg.displayName ++ "*.pkg.tar.zst") = [] →
      discoverBuiltPackages env pkg = env.glob "*.pkg.tar.zst") ∧
    (discoverBuiltPackages env pkg = [] ↔
      env.glob (pkg.pkgbase ++ "*.pkg.tar.zst") = [] ∧
      env.glob (pkg.displayName ++ "*.pkg.tar.zst") = [] ∧
      env.glob "*.pkg.tar.zst" = []) := by
  unfold discoverBuiltPackages
  by_cases h1 : env.glob (pkg.pkgbase ++ "*.pkg.tar.zst") = []
  · by_cases h2 : env.glob (pkg.displayName ++ "*.pkg.tar.zst") = []
    · simp [h1, h2]
    · simp [h1, h2]
  · simp [h1]

/-- C5: artifact discovery tries the fixed fallback chain — exact
group-name prefix, display-name prefix, then any package artifact — and the
first non-empty glob wins (shown in general by
`discoverBuiltPackages_fallback`-style conjuncts); after a successful
build, `process_package` takes its failed-result path with the
no-package-files error if and only if every fallback level matched zero
files (shown for the pipeline on the `foo` build with arbitrary glob
outcomes `lA`, `lB`). -/
theorem claim5_artifact_fallback (lA lB : List String) :
    (∀ env pkg,
      (env.glob (pkg.pkgbase ++ "*.pkg.tar.zst") ≠ [] →
        discoverBuiltPackages env pkg = env.glob (pkg.pkgbase ++ "*.pkg.tar.zst")) ∧
      (env.glob (pkg.pkgbase ++ "*.pkg.tar.zst") = [] →
        env.glob (pkg.displayName ++ "*.pkg.tar.zst") ≠ [] →
        discoverBuiltPackages env pkg = env.glob (pkg.displayName ++ "*.pkg.tar.zst")) ∧
      (env.glob (pkg.pkgbase ++ "*.pkg.tar.zst") = [] →
        env.glob (pkg.displayName ++ "*.pkg.tar.zst") = [] →
        discoverBuiltPackages env pkg = env.glob "*.pkg.tar.zst")) ∧
    (processPackage cfgDry (envGlob lA lB) taskFoo).res.map
      (fun r => (r.success, r.builtPackagePaths, r.errorDetails)) =
      Except.ok
        (if lA ≠ [] then (true, lA, none)
         else if lB ≠ [] then (true, lB, none)
         else (false, ([] : List String),
           some "No package files (*.pkg.tar.zst) found after successful makepkg.")) ∧
    ((∃ r, (processPackage cfgDry (envGlob lA lB) taskFoo).res = Except.ok r ∧
        r.success = false ∧
        r.errorDetails =
          some "No package files (*.pkg.tar.zst) found after successful makepkg.") ↔
      (lA = [] ∧ lB = [])) := by
  have hmap : (processPackage cfgDry (envGlob lA lB) taskFoo).res.map
      (fun r => (r.success, r.builtPackagePaths, r.errorDetails)) =
      Except.ok
        (if lA ≠ [] then (true, lA, none)
         else if lB ≠ [] then (true, lB, none)
         else (false, ([] : List String),
           some "No package files (*.pkg.tar.zst) found after successful makepkg.")) := by
    rcases lA with _ | ⟨a, as⟩
    · rcases lB with _ | ⟨b, bs⟩
      · rfl
      · rfl
    · rfl
  refine ⟨fun env pkg =>
    ⟨(discoverBuiltPackages_fallback env pkg).1,
     (discoverBuiltPackages_fallback env pkg).2.1,
     (discoverBuiltPackages_fallback env pkg).2.2.1⟩, hmap, ?_⟩
  constructor
  · rintro ⟨r, hr, hsucc, _⟩
    rw [hr] at hmap
    rcases lA with _ | ⟨a, as⟩
    · rcases lB with _ | ⟨b, bs⟩
      · exact ⟨rfl, rfl⟩
      · simp [Except.map, hsucc] at hmap
    · simp [Except.map, hsucc] at hmap
  · rintro ⟨h1, h2⟩
    subst h1
    subst h2
    rcases hres : (processPackage cfgDry (envGlob [] []) taskFoo).res with e | r
    · rw [hres] at hmap
      simp [Except.map] at hmap
    · rw [hres] at hmap
      simp [Except.map] at hmap
      exact ⟨r, rfl, hmap.1, hmap.2.2⟩

/-- Witness for C5: with the `foo*` glob non-empty, discovery returns it. -/
theorem claim5_artifact_fallback_witness :
    discoverBuiltPackages envAllOk pdFooLocal =
      envAllOk.glob (pdFooLocal.pkgbase ++ "*.pkg.tar.zst") :=
  ((claim5_artifact_fallback [] []).1 envAllOk pdFooLocal).1 (by decide)

/-! ## Claim C9: release tag naming and overwrite-by-replacement -/

theorem M.bind_eq {α β : Type} (x : M α) (f : α → M β) : x >>= f = M.mkBind x f := rfl

theorem M.pure_eq {α : Type} (a : α) : (pure a : M α) = M.mkPure a := rfl

/-- C9: whenever the release block runs for an updated package (artifacts
built, `new_version` recorded), the release tag is exactly the package name
joined by a hyphen to the full new version, and when a release under that
tag already exists (the `gh release view` probe exits 0) the pipeline first
deletes the release together with its tag (`--cleanup-tag`) and then
creates it fresh — delete strictly before create, never a merge.  The
concrete end-to-end run (descriptor `foo` at 1.0-1 updated to upstream 1.1,
tag `foo-1.1-1`) exhibits the same ordering through the whole pipeline. -/
theorem claim9_release_tag_overwrite (cfg : BuildConfiguration) (env : Env)
    (task : PackageUpdateTask) (s : ProcSt) (nv so se : String) (rdel rcre : SubRes)
    (hdr : cfg.dryRunMode = false)
    (hnv : s.result.newVersion = some nv)
    (hnvne : nv ≠ "")
    (hbp : s.result.builtPackagePaths ≠ [])
    (hview : env.runSub ["gh", "release", "view",
        task.pkgbuildData.displayName ++ "-" ++ nv, "-R", cfg.githubRepository] =
      Except.ok { returncode := 0, stdout := so, stderr := se })
    (hdel : env.runSub ["gh", "release", "delete",
        task.pkgbuildData.displayName ++ "-" ++ nv, "--cleanup-tag", "--yes",
        "-R", cfg.githubRepository] = Except.ok rdel)
    (hcre : env.runSub (["gh", "release", "create",
        task.pkgbuildData.displayName ++ "-" ++ nv, "--title",
        task.pkgbuildData.displayName ++ " " ++ nv, "--notes",
        "Automated release for " ++ task.pkgbuildData.displayName ++ " version "
          ++ nv ++ ".", "-R", cfg.githubRepository]
        ++ s.result.builtPackagePaths.filter env.isFile) = Except.ok rcre) :
    (releaseStageM cfg env task true s).2.trace =
      s.trace ++
        [Eff.runCmd ["gh", "release", "view",
           task.pkgbuildData.displayName ++ "-" ++ nv, "-R", cfg.githubRepository],
         Eff.runCmd ["gh", "release", "delete",
           task.pkgbuildData.displayName ++ "-" ++ nv, "--cleanup-tag", "--yes",
           "-R", cfg.githubRepository],
         Eff.runCmd (["gh", "release", "create",
           task.pkgbuildData.displayName ++ "-" ++ nv, "--title",
           task.pkgbuildData.displayName ++ " " ++ nv, "--notes",
           "Automated release for " ++ task.pkgbuildData.displayName ++ " version "
             ++ nv ++ ".", "-R", cfg.githubRepository]
           ++ s.result.builtPackagePaths.filter env.isFile)] ∧
    fooDeleteEff ∈ (processPackage cfgBase envAllOk taskFoo).trace ∧
    fooCreateEff ∈ (processPackage cfgBase envAllOk taskFoo).trace ∧
    (processPackage cfgBase envAllOk taskFoo).trace.indexOf fooDeleteEff <
      (processPackage cfgBase envAllOk taskFoo).trace.indexOf fooCreateEff := by
  refine ⟨?_, by decide, by decide, by decide⟩
  simp only [releaseStageM, releaseOverwriteStepM, tagExistsM, deleteReleaseAndTagM,
    createReleaseM, getResult, addAction, modifyResult, tryRunSubM,
    M.bind_eq, M.mkBind, M.pure_eq, M.mkPure, pyOrElse, hnv, hdr]
  simp only [hnvne, if_false, ite_false]
  simp only [List.cons_append, List.nil_append] at hcre
  simp [hbp, tryRunSubM, M.mkBind, M.mkPure, throwExc, modifyResult,
    hview, hdel, hcre]

/-- Witness for C9 at the concrete fixture. -/
theorem claim9_release_tag_overwrite_witness :
    (releaseStageM cfgBase envAllOk taskFoo true sRelFixture).2.trace =
      sRelFixture.trace ++
        [Eff.runCmd ["gh", "release", "view",
           taskFoo.pkgbuildData.displayName ++ "-" ++ "1.1-1", "-R",
           cfgBase.githubRepository],
         Eff.runCmd ["gh", "release", "delete",
           taskFoo.pkgbuildData.displayName ++ "-" ++ "1.1-1", "--cleanup-tag",
           "--yes", "-R", cfgBase.githubRepository],
         Eff.runCmd (["gh", "release", "create",
           taskFoo.pkgbuildData.displayName ++ "-" ++ "1.1-1", "--title",
           taskFoo.pkgbuildData.displayName ++ " " ++ "1.1-1", "--notes",
           "Automated release for " ++ taskFoo.pkgbuildData.displayName
             ++ " version " ++ "1.1-1" ++ ".", "-R", cfgBase.githubRepository]
           ++ sRelFixture.result.builtPackagePaths.filter envAllOk.isFile)] :=
  (claim9_release_tag_overwrite cfgBase envAllOk taskFoo sRelFixture "1.1-1" "" ""
    { returncode := 0, stdout := "", stderr := "" }
    { returncode := 0, stdout := "", stderr := "" }
    rfl rfl (by decide) (by decide) rfl rfl rfl).1
